import Mathlib

set_option maxHeartbeats 1000000

/-!
Verification of the graph-construction core of the BMF flow architecture
viewer (Python sources under `src/`): the task/edge/graph data model
(`src/models/task.py`), the graph builder, dependency resolver and
validator (`src/graph/builder.py`), the AST-based source parser
(`src/parsers/python_parser.py`) and the YAML configuration parser
(`src/parsers/yaml_parser.py`), shallowly embedded as executable Lean
definitions.  Python dictionaries are modelled as insertion-ordered
association lists, Python sets as lists with first-occurrence
deduplication, exceptions as `Except`, and dynamically typed Python
values as the inductive `PVal`.
-/

namespace BMF

/-- Python value universe for the parsers/model: results of the source
parser's `_resolve_value` and values stored in task parameters and
metadata.  Strings cover literals, identifier references, placeholder
strings and attribute chains, exactly as in the Python code where all
four are `str`. -/
inductive PVal where
  | str : String → PVal
  | int : Int → PVal
  | bool : Bool → PVal
  | none : PVal
  | list : List PVal → PVal
  | tuple : List PVal → PVal
  | dict : List (PVal × PVal) → PVal
deriving Repr, Inhabited

/-- Python truthiness (`if key:`-style tests) on the embedded value
universe: `None`, `False`, `0`, the empty string and empty containers
are falsy. -/
def pyTruthy : PVal → Bool
  | .str s => !s.isEmpty
  | .int n => n != 0
  | .bool b => b
  | .none => false
  | .list xs => !xs.isEmpty
  | .tuple xs => !xs.isEmpty
  | .dict kvs => !kvs.isEmpty

/-- A single-quote character, used by the Python `repr` rendering of
strings inside containers. -/
def pySQ : String := String.singleton (Char.ofNat 39)

mutual

/-- Python `str()` of an embedded value, as used by the parser's
f-strings (e.g. rendering attribute chains `f"{value}.{attr}"`).
Scalars render as in Python; containers render via `repr`. -/
def pyStr : PVal → String
  | .str s => s
  | .int n => toString n
  | .bool b => if b then "True" else "False"
  | .none => "None"
  | .list xs => "[" ++ String.intercalate ", " (pyReprList xs) ++ "]"
  | .tuple xs => "(" ++ String.intercalate ", " (pyReprList xs) ++ ")"
  | .dict kvs => "\x7b" ++ String.intercalate ", " (pyReprPairs kvs) ++ "\x7d"

/-- Python `repr()` of an embedded value: like `pyStr` but strings are
quoted. -/
def pyRepr : PVal → String
  | .str s => pySQ ++ s ++ pySQ
  | v => pyStr v

/-- `repr` of each element of a list of values. -/
def pyReprList : List PVal → List String
  | [] => []
  | v :: vs => pyRepr v :: pyReprList vs

/-- `repr` of each key/value pair of a dict. -/
def pyReprPairs : List (PVal × PVal) → List String
  | [] => []
  | (k, v) :: kvs => (pyRepr k ++ ": " ++ pyRepr v) :: pyReprPairs kvs

end

-- ===========================================================================
-- Data model: Task, Edge, FlowGraph  (src/models/task.py)
-- ===========================================================================

/-- Embedding of the `Task` dataclass (`src/models/task.py`).
`task_name` is kept in the Python value universe because
`_extract_task_name` can return any constant.  Parameter keys are
`Option String` because a Python keyword argument name can be `None`
(for `**kwargs`). -/
structure Task where
  task_id : String
  task_type : String
  task_name : PVal
  parameters : List (Option String × PVal) := []
  line_number : Option Nat := Option.none
  file_path : Option String := Option.none
  metadata : List (String × PVal) := []
deriving Repr, Inhabited

/-- Embedding of the `Edge` dataclass (`src/models/task.py`). -/
structure Edge where
  source_id : String
  target_id : String
  label : Option String := Option.none
  edge_type : String := "dependency"
  metadata : List (String × PVal) := []
deriving Repr, Inhabited

/-- Python `Edge.__eq__`: equality by the `(source_id, target_id)` pair
only. -/
def Edge.samePair (a b : Edge) : Bool :=
  a.source_id == b.source_id && a.target_id == b.target_id

/-- Embedding of the `FlowGraph` class: an insertion-ordered task
mapping (association list keyed by `task_id`) and an ordered edge
list. -/
structure FlowGraph where
  object_name : String
  object_path : String
  tasks : List (String × Task) := []
  edges : List Edge := []
  metadata : List (String × PVal) := []
deriving Repr, Inhabited

namespace FlowGraph

/-- Membership test `task_id in self.tasks` on the task mapping. -/
def hasTask (g : FlowGraph) (tid : String) : Bool :=
  g.tasks.any (fun p => p.1 == tid)

/-- Lookup `self.tasks.get(task_id)` on the task mapping. -/
def getTask (g : FlowGraph) (tid : String) : Option Task :=
  (g.tasks.find? (fun p => p.1 == tid)).map Prod.snd

/-- `FlowGraph.add_task`: raises `ValueError` when the id is already a
key of the task mapping, otherwise inserts the task. -/
def add_task (g : FlowGraph) (t : Task) : Except String FlowGraph :=
  if g.hasTask t.task_id then
    .error ("Task " ++ t.task_id ++ " already exists")
  else
    .ok { g with tasks := g.tasks ++ [(t.task_id, t)] }

/-- `FlowGraph.add_edge`: raises `ValueError` when either endpoint is
not a key of the task mapping; a duplicate edge (by the
`(source_id, target_id)` pair, the `Edge.__eq__` rule) is silently
ignored. -/
def add_edge (g : FlowGraph) (e : Edge) : Except String FlowGraph :=
  if !g.hasTask e.source_id then
    .error ("Source task " ++ e.source_id ++ " not found")
  else if !g.hasTask e.target_id then
    .error ("Target task " ++ e.target_id ++ " not found")
  else if g.edges.any (fun e2 => e2.samePair e) then
    .ok g
  else
    .ok { g with edges := g.edges ++ [e] }

/-- First-occurrence deduplication, modelling accumulation into a
Python `set` of strings followed by iteration (iteration order of the
model is first-insertion order). -/
def dedup (xs : List String) : List String :=
  xs.foldl (fun acc x => if acc.contains x then acc else acc ++ [x]) []

/-- `FlowGraph.get_upstream_tasks`: the distinct sources of edges into
`task_id`, restricted to ids present in the task mapping. -/
def get_upstream_tasks (g : FlowGraph) (tid : String) : List Task :=
  let upstream_ids := dedup ((g.edges.filter (fun e => e.target_id == tid)).map (·.source_id))
  (upstream_ids.filter (fun i => g.hasTask i)).filterMap g.getTask

/-- `FlowGraph.get_downstream_tasks`: the distinct targets of edges out
of `task_id`, restricted to ids present in the task mapping. -/
def get_downstream_tasks (g : FlowGraph) (tid : String) : List Task :=
  let downstream_ids := dedup ((g.edges.filter (fun e => e.source_id == tid)).map (·.target_id))
  (downstream_ids.filter (fun i => g.hasTask i)).filterMap g.getTask

/-- `FlowGraph.get_root_tasks`: tasks that are no edge's target. -/
def get_root_tasks (g : FlowGraph) : List Task :=
  let target_ids := g.edges.map (·.target_id)
  (g.tasks.map Prod.snd).filter (fun t => !target_ids.contains t.task_id)

/-- `FlowGraph.get_leaf_tasks`: tasks that are no edge's source. -/
def get_leaf_tasks (g : FlowGraph) : List Task :=
  let source_ids := g.edges.map (·.source_id)
  (g.tasks.map Prod.snd).filter (fun t => !source_ids.contains t.task_id)

end FlowGraph

/-- The edge-endpoint invariant of the data model: every edge's source
and target are keys of the task mapping. -/
def edgeEndpointInv (g : FlowGraph) : Prop :=
  ∀ e ∈ g.edges, g.hasTask e.source_id = true ∧ g.hasTask e.target_id = true

instance (g : FlowGraph) : Decidable (edgeEndpointInv g) := by
  unfold edgeEndpointInv; infer_instance

/-- A graph-mutating operation: one `add_task` or `add_edge` call. -/
inductive GraphOp where
  | addTask : Task → GraphOp
  | addEdge : Edge → GraphOp
deriving Repr

/-- Run one operation against the graph.  A failed call (the Python
method raises) leaves the graph unchanged, since in the source both
methods raise before any mutation. -/
def applyOp (g : FlowGraph) (op : GraphOp) : FlowGraph :=
  match op with
  | .addTask t => match g.add_task t with | .ok g2 => g2 | .error _ => g
  | .addEdge e => match g.add_edge e with | .ok g2 => g2 | .error _ => g

/-- Run a sequence of operations from a given start graph. -/
def applyOps (g : FlowGraph) (ops : List GraphOp) : FlowGraph :=
  ops.foldl applyOp g

/-- The freshly constructed empty graph (`FlowGraph.__init__`). -/
def FlowGraph.empty (name path : String) : FlowGraph :=
  { object_name := name, object_path := path }

-- ===========================================================================
-- GraphBuilder._has_cycle  (src/graph/builder.py lines 345-371)
-- ===========================================================================

/-- A dynamically typed id value as it flows through
`GraphBuilder._has_cycle`: the top-level loop passes `str` task ids to
`dfs`, but the inner loop passes the `Task` objects returned by
`get_downstream_tasks` (the source binds them to `downstream_id`). -/
inductive PyId where
  | str : String → PyId
  | task : Task → PyId

/-- Python `==` between two such values: `str == str` compares text,
`Task == Task` compares `task_id` (`Task.__eq__`), and a mixed
comparison is `False` (`Task.__eq__` returns `False` for non-`Task`
and `str.__eq__` returns `NotImplemented`). -/
def pyIdEq : PyId → PyId → Bool
  | .str a, .str b => a == b
  | .task a, .task b => a.task_id == b.task_id
  | _, _ => false

/-- Python `in` on a set holding such values (hash by id text, equality
as `pyIdEq`). -/
def pyIdMem (x : PyId) (xs : List PyId) : Bool :=
  xs.any (fun y => pyIdEq y x)

/-- Python `==` between an edge's `source_id`/`target_id` (a `str`) and
a dynamically typed id: `False` whenever the id is a `Task` object. -/
def pyEqStrId (s : String) (pid : PyId) : Bool :=
  match pid with
  | .str t => s == t
  | .task _ => false

/-- `get_downstream_tasks` as invoked from `GraphBuilder._has_cycle`,
where the argument may be a `Task` object rather than an id string:
the source compares `edge.source_id == task_id`, which is always
`False` for a `Task` argument. -/
def FlowGraph.get_downstream_tasksDyn (g : FlowGraph) (pid : PyId) : List Task :=
  let downstream_ids := FlowGraph.dedup ((g.edges.filter (fun e => pyEqStrId e.source_id pid)).map (·.target_id))
  (downstream_ids.filter (fun i => g.hasTask i)).filterMap g.getTask

/-- The inner `dfs` of `GraphBuilder._has_cycle`, fuel-indexed for
termination (the fuel passed by `builderHasCycle` exceeds every
reachable recursion depth).  Returns the result together with the
updated shared `visited` and `rec_stack` sets.  The
`for downstream_id in self.graph.get_downstream_tasks(task_id)` loop
(iterating over `Task` objects) is a fold whose state carries the
found-flag and both sets; once the flag is set the remaining iterations
are skipped, matching the early `return True`. -/
def builderDfs (g : FlowGraph) : Nat → PyId → List PyId → List PyId →
    Bool × List PyId × List PyId
  | 0, _, visited, recStack => (false, visited, recStack)
  | fuel + 1, pid, visited, recStack =>
    let v1 := visited ++ [pid]
    let r1 := recStack ++ [pid]
    let res := (g.get_downstream_tasksDyn pid).foldl
      (fun (acc : Bool × List PyId × List PyId) t =>
        if acc.1 then acc
        else if !pyIdMem (.task t) acc.2.1 then
          builderDfs g fuel (.task t) acc.2.1 acc.2.2
        else if pyIdMem (.task t) acc.2.2 then (true, acc.2.1, acc.2.2)
        else acc)
      (false, v1, r1)
    if res.1 then res
    else (false, res.2.1, res.2.2.filter (fun y => !pyIdEq y pid))

/-- The `for task_id in self.graph.tasks` loop of
`GraphBuilder._has_cycle`, passing id strings to `dfs`. -/
def builderHasCycleLoop (g : FlowGraph) (keys : List String) (visited recStack : List PyId) : Bool :=
  match keys with
  | [] => false
  | k :: rest =>
    if !pyIdMem (.str k) visited then
      let res := builderDfs g (g.tasks.length + 2) (.str k) visited recStack
      if res.1 then true else builderHasCycleLoop g rest res.2.1 res.2.2
    else builderHasCycleLoop g rest visited recStack

/-- `GraphBuilder._has_cycle`: DFS over the graph starting from every
task id, with shared `visited` and `rec_stack` sets. -/
def builderHasCycle (g : FlowGraph) : Bool :=
  builderHasCycleLoop g (g.tasks.map Prod.fst) [] []

/-- `GraphBuilder._validate_graph`: isolated tasks are an error, and a
positive `_has_cycle` adds the circular-dependency error. -/
def validateGraphB (g : FlowGraph) : List String :=
  let isolated := (g.tasks.map Prod.fst).filter
    (fun tid => (g.get_upstream_tasks tid).isEmpty && (g.get_downstream_tasks tid).isEmpty)
  let errs :=
    if !isolated.isEmpty then
      ["Isolated tasks found: " ++ String.intercalate ", " isolated]
    else []
  if builderHasCycle g then errs ++ ["Circular dependencies detected in flow"] else errs

-- ===========================================================================
-- GraphValidator._has_cycles  (src/graph/builder.py lines 581-607)
-- ===========================================================================

/-- The inner `dfs` of `GraphValidator._has_cycles`, which (unlike the
builder's) extracts `downstream.task_id` before the set tests.  The
downstream loop is a fold with early-exit skip, as in `builderDfs`. -/
def validatorDfs (g : FlowGraph) : Nat → String → List String → List String →
    Bool × List String × List String
  | 0, _, visited, recStack => (false, visited, recStack)
  | fuel + 1, tid, visited, recStack =>
    let v1 := visited ++ [tid]
    let r1 := recStack ++ [tid]
    let res := (g.get_downstream_tasks tid).foldl
      (fun (acc : Bool × List String × List String) t =>
        if acc.1 then acc
        else if !acc.2.1.contains t.task_id then
          validatorDfs g fuel t.task_id acc.2.1 acc.2.2
        else if acc.2.2.contains t.task_id then (true, acc.2.1, acc.2.2)
        else acc)
      (false, v1, r1)
    if res.1 then res
    else (false, res.2.1, res.2.2.filter (fun y => y != tid))

/-- The `for task_id in self.graph.tasks` loop of
`GraphValidator._has_cycles`. -/
def validatorHasCyclesLoop (g : FlowGraph) (keys : List String) (visited recStack : List String) : Bool :=
  match keys with
  | [] => false
  | k :: rest =>
    if !visited.contains k then
      let res := validatorDfs g (g.tasks.length + 1) k visited recStack
      if res.1 then true else validatorHasCyclesLoop g rest res.2.1 res.2.2
    else validatorHasCyclesLoop g rest visited recStack

/-- `GraphValidator._has_cycles`: DFS with a recursion stack over id
strings. -/
def validatorHasCycles (g : FlowGraph) : Bool :=
  validatorHasCyclesLoop g (g.tasks.map Prod.fst) [] []

-- ===========================================================================
-- GraphBuilder._link_known_terminal_chain  (src/graph/builder.py 211-244)
-- ===========================================================================

/-- Task types treated as "mapping"-like by the auto-linker. -/
def mappingTypeNames : List String := ["Mapping", "MapToSchema", "TransformMap"]

/-- Task types treated as "create"-like by the auto-linker. -/
def createTypeNames : List String := ["CreateObjects", "CreateVeevaObjects"]

/-- Task types treated as "report"-like by the auto-linker. -/
def reportTypeNames : List String := ["GenerateReport", "Report", "ExportReport"]

/-- Tasks of the graph whose type is "mapping"-like. -/
def mappingTasksOf (g : FlowGraph) : List Task :=
  (g.tasks.map Prod.snd).filter (fun t => mappingTypeNames.contains t.task_type)

/-- Tasks of the graph whose type is "create"-like. -/
def createTasksOf (g : FlowGraph) : List Task :=
  (g.tasks.map Prod.snd).filter (fun t => createTypeNames.contains t.task_type)

/-- Tasks of the graph whose type is "report"-like. -/
def reportTasksOf (g : FlowGraph) : List Task :=
  (g.tasks.map Prod.snd).filter (fun t => reportTypeNames.contains t.task_type)

/-- The first `if` block of `_link_known_terminal_chain`: when exactly
one "mapping"-like and exactly one "create"-like task exist and no edge
already runs from the former to the latter, add an edge with default
`dependency` type (label `CreateObjects`) and record a warning.  An
`add_edge` exception is swallowed (`except: pass`). -/
def linkStep1 (g : FlowGraph) (warnings : List String) : FlowGraph × List String :=
  match mappingTasksOf g, createTasksOf g with
  | [mt], [ct] =>
    let m := mt.task_id
    let c := ct.task_id
    if !(g.edges.any (fun e => e.source_id == m && e.target_id == c)) then
      match g.add_edge { source_id := m, target_id := c, label := some "CreateObjects" } with
      | .ok g2 => (g2, warnings ++ ["Linked Mapping -> CreateObjects (auto)"])
      | .error _ => (g, warnings)
    else (g, warnings)
  | _, _ => (g, warnings)

/-- The second `if` block of `_link_known_terminal_chain`: the
create→report link.  The candidate lists are those computed at entry
(on `g0`), while the duplicate-edge guard and the insertion run on the
graph left by the first block. -/
def linkStep2 (g0 : FlowGraph) (st : FlowGraph × List String) : FlowGraph × List String :=
  match createTasksOf g0, reportTasksOf g0 with
  | [ct], [rt] =>
    let c := ct.task_id
    let r := rt.task_id
    if !(st.1.edges.any (fun e => e.source_id == c && e.target_id == r)) then
      match st.1.add_edge { source_id := c, target_id := r, label := some "GenerateReport" } with
      | .ok g2 => (g2, st.2 ++ ["Linked CreateObjects -> GenerateReport (auto)"])
      | .error _ => st
    else st
  | _, _ => st

/-- `GraphBuilder._link_known_terminal_chain` is the two blocks in
sequence. -/
def linkKnownTerminalChain (g : FlowGraph) (warnings : List String) : FlowGraph × List String :=
  linkStep2 g (linkStep1 g warnings)

-- ===========================================================================
-- DependencyResolver.get_execution_order  (src/graph/builder.py 392-422)
-- ===========================================================================

/-- One iteration of `get_execution_order`: the not-yet-processed task
ids all of whose upstream tasks are already processed, in task-mapping
insertion order. -/
def nextLayer (g : FlowGraph) (processed : List String) : List String :=
  (g.tasks.map Prod.fst).filter (fun tid =>
    !processed.contains tid &&
    ((g.get_upstream_tasks tid).map Task.task_id).all (fun u => processed.contains u))

/-- The `while len(processed) < len(self.graph.tasks)` loop of
`get_execution_order`, fuel-indexed: an empty candidate layer breaks
out of the loop (partial layering on an unresolvable cycle).  Every
successful iteration strictly grows `processed` with fresh task ids, so
the loop runs at most `len(self.graph.tasks)` iterations; with the fuel
supplied by `get_execution_order` the fuel-exhaustion case is
unreachable (`execLoop_fuel_stable` below). -/
def execLoop (g : FlowGraph) : Nat → List String → List (List String)
  | 0, _ => []
  | fuel + 1, processed =>
    if processed.length < g.tasks.length then
      if (nextLayer g processed).isEmpty then []
      else nextLayer g processed :: execLoop g fuel (processed ++ nextLayer g processed)
    else []

/-- `DependencyResolver.get_execution_order`: topological layering. -/
def get_execution_order (g : FlowGraph) : List (List String) :=
  execLoop g (g.tasks.length + 1) []

/-- One-step unfolding of `execLoop`. -/
theorem execLoop_succ (g : FlowGraph) (fuel : Nat) (processed : List String) :
    execLoop g (fuel + 1) processed =
      if processed.length < g.tasks.length then
        if (nextLayer g processed).isEmpty then []
        else nextLayer g processed :: execLoop g fuel (processed ++ nextLayer g processed)
      else [] := rfl

/-- With fuel at least `|tasks| - |processed| + 1` the loop result does
not depend on the fuel: the model is the terminating `while` loop of
the source, not a truncation. -/
theorem execLoop_fuel_stable (g : FlowGraph) :
    ∀ (fuel : Nat) (processed : List String),
      g.tasks.length ≤ fuel + processed.length →
      execLoop g (fuel + 1) processed = execLoop g fuel processed := by
  intro fuel
  induction fuel with
  | zero =>
    intro processed h
    have hng : ¬ processed.length < g.tasks.length := by omega
    simp [execLoop, hng]
  | succ n ih =>
    intro processed h
    by_cases hg : processed.length < g.tasks.length
    · by_cases hl : (nextLayer g processed).isEmpty = true
      · conv_lhs => rw [execLoop_succ g (n + 1) processed, if_pos hg, if_pos hl]
        conv_rhs => rw [execLoop_succ g n processed, if_pos hg, if_pos hl]
      · have hpos : 0 < (nextLayer g processed).length := by
          cases hc : nextLayer g processed with
          | nil => rw [hc] at hl; simp at hl
          | cons a l => simp
        have hrec := ih (processed ++ nextLayer g processed)
          (by simp only [List.length_append]; omega)
        conv_lhs => rw [execLoop_succ g (n + 1) processed, if_pos hg, if_neg hl]
        conv_rhs => rw [execLoop_succ g n processed, if_pos hg, if_neg hl]
        rw [hrec]
    · conv_lhs => rw [execLoop_succ g (n + 1) processed, if_neg hg]
      conv_rhs => rw [execLoop_succ g n processed, if_neg hg]

-- ===========================================================================
-- Concrete graphs used as inputs
-- ===========================================================================

/-- A task with the given id and type, display name defaulting to the
id (as `_extract_task_definitions` produces when no `task_args` name is
declared). -/
def mkT (i ty : String) : Task :=
  { task_id := i, task_type := ty, task_name := .str i }

/-- An edge with default label and `dependency` type. -/
def mkE (s t : String) : Edge :=
  { source_id := s, target_id := t }

/-- The 3-node cycle A→B→C→A of the spec's cycle-detection property. -/
def cycle3Graph : FlowGraph :=
  { object_name := "test", object_path := "/test",
    tasks := [("A", mkT "A" "ReadExcel"), ("B", mkT "B" "Filter"), ("C", mkT "C" "Merge")],
    edges := [mkE "A" "B", mkE "B" "C", mkE "C" "A"] }

/-- An acyclic 3-node graph of the same size (chain A→B→C). -/
def dag3Graph : FlowGraph :=
  { object_name := "test", object_path := "/test",
    tasks := [("A", mkT "A" "ReadExcel"), ("B", mkT "B" "Filter"), ("C", mkT "C" "Merge")],
    edges := [mkE "A" "B", mkE "B" "C"] }

/-- The diamond graph A→B, B→C, B→D of the layering property. -/
def diamondGraph : FlowGraph :=
  { object_name := "test", object_path := "/test",
    tasks := [("A", mkT "A" "ReadExcel"), ("B", mkT "B" "Filter"),
              ("C", mkT "C" "Merge"), ("D", mkT "D" "CreateObjects")],
    edges := [mkE "A" "B", mkE "B" "C", mkE "B" "D"] }

/-- A two-node cycle A→B→A, on which the layering loop can make no
progress at all. -/
def twoCycleGraph : FlowGraph :=
  { object_name := "test", object_path := "/test",
    tasks := [("A", mkT "A" "ReadExcel"), ("B", mkT "B" "Filter")],
    edges := [mkE "A" "B", mkE "B" "A"] }

-- ===========================================================================
-- C1  (code bug: GraphBuilder._has_cycle never detects a cycle)
-- ===========================================================================

/-- C1: the claim states that `GraphBuilder._validate_graph` (via
`GraphBuilder._has_cycle`) reports a circular-dependency error on the
3-node cycle A→B→C→A.  The code does not: `_has_cycle` iterates
`get_downstream_tasks`, which returns `Task` objects, and uses them
directly as ids, so every `visited`/`rec_stack` membership test against
id strings is `False` and the DFS never finds a back edge —
`_validate_graph` on the cycle returns no error at all.  The parallel
`GraphValidator._has_cycles` (which extracts `.task_id`) does detect
the cycle, confirming the intent; on the acyclic graph of the same
size neither reports anything. -/
theorem C1_cycle_detection_code_bug :
    validateGraphB cycle3Graph = [] ∧
    builderHasCycle cycle3Graph = false ∧
    validatorHasCycles cycle3Graph = true ∧
    validateGraphB dag3Graph = [] ∧
    validatorHasCycles dag3Graph = false := by
  refine ⟨by decide, by decide, by decide, by decide, by decide⟩

-- ===========================================================================
-- C2  (add_task / add_edge error contract)
-- ===========================================================================

/-- C2: `FlowGraph.add_task` with an already-present `task_id` fails;
`FlowGraph.add_edge` with a missing endpoint fails; `FlowGraph.add_edge`
with an edge whose `(source_id, target_id)` pair duplicates an existing
edge (and whose endpoints exist, so the preceding endpoint checks pass)
succeeds and returns the graph with its edge list unchanged. -/
theorem C2_add_contract :
    (∀ (g : FlowGraph) (t : Task), g.hasTask t.task_id = true →
        ∃ m, g.add_task t = Except.error m) ∧
    (∀ (g : FlowGraph) (e : Edge),
        (g.hasTask e.source_id = false ∨ g.hasTask e.target_id = false) →
        ∃ m, g.add_edge e = Except.error m) ∧
    (∀ (g : FlowGraph) (e : Edge), g.hasTask e.source_id = true →
        g.hasTask e.target_id = true →
        (∃ e2 ∈ g.edges, e2.samePair e = true) →
        g.add_edge e = Except.ok g) := by
  refine ⟨?_, ?_, ?_⟩
  · intro g t h
    exact ⟨"Task " ++ t.task_id ++ " already exists", by simp [FlowGraph.add_task, h]⟩
  · intro g e h
    rcases h with h | h
    · exact ⟨"Source task " ++ e.source_id ++ " not found",
        by simp [FlowGraph.add_edge, h]⟩
    · cases hs : g.hasTask e.source_id with
      | false => exact ⟨"Source task " ++ e.source_id ++ " not found",
          by simp [FlowGraph.add_edge, hs]⟩
      | true => exact ⟨"Target task " ++ e.target_id ++ " not found",
          by simp [FlowGraph.add_edge, hs, h]⟩
  · intro g e hs ht hex
    have hdup : g.edges.any (fun e2 => e2.samePair e) = true := by
      rcases hex with ⟨e2, he2, hp⟩
      exact List.any_eq_true.mpr ⟨e2, he2, hp⟩
    simp [FlowGraph.add_edge, hs, ht, hdup]

/-- Concrete graph for the C2 witness: one task `A` and one edge
`A→A`. -/
def gWitness : FlowGraph :=
  { object_name := "w", object_path := "/w",
    tasks := [("A", mkT "A" "ReadExcel")], edges := [mkE "A" "A"] }

/-- Witness for C2 at concrete inputs: re-adding task `A` fails, adding
an edge to the missing task `Z` fails, and re-adding the `A→A` pair
(with a different label) succeeds leaving the graph unchanged. -/
theorem C2_add_contract_witness :
    (∃ m, gWitness.add_task (mkT "A" "Filter") = Except.error m) ∧
    (∃ m, gWitness.add_edge (mkE "A" "Z") = Except.error m) ∧
    gWitness.add_edge { source_id := "A", target_id := "A", label := some "dup" } =
      Except.ok gWitness :=
  ⟨C2_add_contract.1 gWitness (mkT "A" "Filter") (by decide),
   C2_add_contract.2.1 gWitness (mkE "A" "Z") (Or.inr (by decide)),
   C2_add_contract.2.2 gWitness _ (by decide) (by decide)
     ⟨mkE "A" "A", by simp [gWitness], by decide⟩⟩

-- ===========================================================================
-- C3  (edge-endpoint invariant preserved by all operation sequences)
-- ===========================================================================

/-- `hasTask` is preserved when the task mapping is extended. -/
theorem hasTask_extend (g : FlowGraph) (t : Task) (tid : String)
    (h : g.hasTask tid = true) :
    FlowGraph.hasTask { g with tasks := g.tasks ++ [(t.task_id, t)] } tid = true := by
  unfold FlowGraph.hasTask at *
  simp only [List.any_append, Bool.or_eq_true]
  exact Or.inl h

/-- One `add_task` or `add_edge` call (successful or failed) preserves
the edge-endpoint invariant. -/
theorem applyOp_preserves_inv (g : FlowGraph) (op : GraphOp)
    (h : edgeEndpointInv g) : edgeEndpointInv (applyOp g op) := by
  cases op with
  | addTask t =>
    unfold applyOp FlowGraph.add_task
    by_cases hc : g.hasTask t.task_id
    · simp [hc]; exact h
    · simp [hc]
      intro e he
      have he2 : e ∈ g.edges := he
      exact ⟨hasTask_extend g t _ (h e he2).1, hasTask_extend g t _ (h e he2).2⟩
  | addEdge e =>
    unfold applyOp FlowGraph.add_edge
    cases hs : g.hasTask e.source_id with
    | false => simp [hs]; exact h
    | true =>
      cases ht : g.hasTask e.target_id with
      | false => simp [hs, ht]; exact h
      | true =>
        by_cases hdup : g.edges.any (fun e2 => e2.samePair e)
        · simp [hs, ht, hdup]; exact h
        · simp [hs, ht, hdup]
          intro e2 he2
          rcases List.mem_append.mp he2 with hin | hin
          · exact h e2 hin
          · have : e2 = e := by simpa using hin
            subst this
            exact ⟨hs, ht⟩

/-- C3: every graph reachable from the empty graph by any sequence of
`add_task` / `add_edge` calls (failed calls leave the graph unchanged,
as both methods raise before mutating) satisfies the edge-endpoint
invariant: each edge's `source_id` and `target_id` are keys of the
task mapping. -/
theorem C3_edge_endpoint_invariant (name path : String) (ops : List GraphOp) :
    edgeEndpointInv (applyOps (FlowGraph.empty name path) ops) := by
  have hbase : edgeEndpointInv (FlowGraph.empty name path) := by
    intro e he
    simp [FlowGraph.empty] at he
  have hgen : ∀ (l : List GraphOp) (g : FlowGraph),
      edgeEndpointInv g → edgeEndpointInv (applyOps g l) := by
    intro l
    induction l with
    | nil => intro g hg; exact hg
    | cons op rest ih =>
      intro g hg
      exact ih _ (applyOp_preserves_inv g op hg)
  exact hgen ops _ hbase

-- ===========================================================================
-- C7  (execution layering: diamond instance and the stopping property)
-- ===========================================================================

/-- The loop always exits either having processed at least as many ids
as there are tasks, or at a state where the next candidate layer is
empty (no remaining task has all upstream tasks processed). -/
theorem execLoop_stuck (g : FlowGraph) :
    ∀ (fuel : Nat) (processed : List String),
      g.tasks.length ≤ fuel + processed.length →
      g.tasks.length ≤ (processed ++ (execLoop g fuel processed).flatten).length ∨
      nextLayer g (processed ++ (execLoop g fuel processed).flatten) = [] := by
  intro fuel
  induction fuel with
  | zero =>
    intro p h
    left
    simpa [execLoop] using h
  | succ n ih =>
    intro p h
    by_cases hg : p.length < g.tasks.length
    · by_cases hl : (nextLayer g p).isEmpty = true
      · right
        rw [execLoop_succ g n p, if_pos hg, if_pos hl]
        simpa using List.isEmpty_iff.mp hl
      · have hpos : 0 < (nextLayer g p).length := by
          cases hc : nextLayer g p with
          | nil => rw [hc] at hl; simp at hl
          | cons a l => simp
        have hrec := ih (p ++ nextLayer g p)
          (by simp only [List.length_append]; omega)
        rw [execLoop_succ g n p, if_pos hg, if_neg hl]
        simpa [List.append_assoc] using hrec
    · left
      rw [execLoop_succ g n p, if_neg hg]
      simp
      omega

/-- C7: `DependencyResolver.get_execution_order` on the diamond
(A→B, B→C, B→D) yields exactly the three layers `[A]`, `[B]`, `[C, D]`
(in task-insertion order within a layer); and on every graph, when the
returned layering is partial (fewer processed ids than tasks), the loop
stopped because no remaining task had all of its upstream tasks
processed — `nextLayer` at the final state is empty.  Termination of
the loop itself is by construction: `execLoop_fuel_stable` shows the
supplied fuel never truncates the run. -/
theorem C7_execution_order :
    get_execution_order diamondGraph = [["A"], ["B"], ["C", "D"]] ∧
    ∀ g : FlowGraph, ((get_execution_order g).flatten).length < g.tasks.length →
      nextLayer g ((get_execution_order g).flatten) = [] := by
  constructor
  · decide
  · intro g hlt
    rw [get_execution_order] at hlt ⊢
    have h := execLoop_stuck g (g.tasks.length + 1) [] (by omega)
    simp only [List.nil_append] at h
    rcases h with h | h
    · omega
    · exact h

/-- Witness for C7 at a concrete input: on the two-node cycle the
layering is empty (partial), and indeed no task qualifies for a next
layer. -/
theorem C7_execution_order_witness :
    ((get_execution_order twoCycleGraph).flatten.length < twoCycleGraph.tasks.length) ∧
    nextLayer twoCycleGraph ((get_execution_order twoCycleGraph).flatten) = [] :=
  ⟨by decide, C7_execution_order.2 twoCycleGraph (by decide)⟩

-- ===========================================================================
-- C6  (terminal-chain auto-linking)
-- ===========================================================================

/-- The task-mapping shape guaranteed by Python dict semantics and
`add_task`: each entry is keyed by its task's id, and keys are
unique. -/
def dictInv (g : FlowGraph) : Prop :=
  (∀ p ∈ g.tasks, p.1 = p.2.task_id) ∧ (g.tasks.map Prod.fst).Nodup

instance (g : FlowGraph) : Decidable (dictInv g) := by
  unfold dictInv; infer_instance

/-- A task appearing among the mapping's values has its id as a key. -/
theorem mem_values_hasTask (g : FlowGraph)
    (hk : ∀ p ∈ g.tasks, p.1 = p.2.task_id) (t : Task)
    (ht : t ∈ g.tasks.map Prod.snd) : g.hasTask t.task_id = true := by
  rcases List.mem_map.mp ht with ⟨p, hp, rfl⟩
  exact List.any_eq_true.mpr ⟨p, hp, by simp [hk p hp]⟩

/-- Under `dictInv`, two values of the task mapping with the same id
are the same task. -/
theorem unique_value_by_id (g : FlowGraph) (hd : dictInv g)
    {t1 t2 : Task} (h1 : t1 ∈ g.tasks.map Prod.snd)
    (h2 : t2 ∈ g.tasks.map Prod.snd) (heq : t1.task_id = t2.task_id) :
    t1 = t2 := by
  rcases List.mem_map.mp h1 with ⟨p1, hp1, rfl⟩
  rcases List.mem_map.mp h2 with ⟨p2, hp2, rfl⟩
  have hkeys : p1.1 = p2.1 := by
    rw [hd.1 p1 hp1, hd.1 p2 hp2]; exact heq
  have hpp : p1 = p2 := List.inj_on_of_nodup_map hd.2 hp1 hp2 hkeys
  rw [hpp]

/-- No task type is both "mapping"-like and "create"-like. -/
theorem mapping_create_type_disjoint (ty : String)
    (h1 : ty ∈ mappingTypeNames) (h2 : ty ∈ createTypeNames) : False := by
  simp [mappingTypeNames] at h1
  simp [createTypeNames] at h2
  rcases h1 with h1 | h1 | h1 <;> rcases h2 with h2 | h2 <;> subst h1 <;> simp at h2

/-- `add_edge` that returns `ok` when no duplicate pair is present has
appended exactly the new edge. -/
theorem add_edge_ok_shape (g : FlowGraph) (e : Edge) (g2 : FlowGraph)
    (hnd : g.edges.any (fun e2 => e2.samePair e) = false)
    (h : g.add_edge e = .ok g2) : g2 = { g with edges := g.edges ++ [e] } := by
  unfold FlowGraph.add_edge at h
  by_cases hs : g.hasTask e.source_id
  · by_cases ht : g.hasTask e.target_id
    · simp [hs, ht, hnd] at h
      exact h.symm
    · simp [hs, ht] at h
  · simp [hs] at h

/-- `add_edge` never changes the task mapping. -/
theorem add_edge_ok_tasks (g : FlowGraph) (e : Edge) (g2 : FlowGraph)
    (h : g.add_edge e = .ok g2) : g2.tasks = g.tasks := by
  unfold FlowGraph.add_edge at h
  by_cases hs : g.hasTask e.source_id
  · by_cases ht : g.hasTask e.target_id
    · by_cases hdup : g.edges.any (fun e2 => e2.samePair e)
      · simp [hs, ht, hdup] at h
        rw [← h]
      · simp [hs, ht, hdup] at h
        rw [← h]
    · simp [hs, ht] at h
  · simp [hs] at h

/-- `linkStep1` either leaves graph and warnings untouched, or (when
unique mapping/create candidates exist) appends exactly the
mapping→create edge and its warning. -/
theorem linkStep1_cases (g : FlowGraph) (w : List String) :
    linkStep1 g w = (g, w) ∨
    ∃ mt ct, mappingTasksOf g = [mt] ∧ createTasksOf g = [ct] ∧
      linkStep1 g w =
        ({ g with edges := g.edges ++
            [{ source_id := mt.task_id, target_id := ct.task_id,
               label := some "CreateObjects" }] },
         w ++ ["Linked Mapping -> CreateObjects (auto)"]) := by
  unfold linkStep1
  split
  case h_1 mt ct heq1 heq2 =>
    dsimp only
    split
    case isTrue hguard =>
      have hany : g.edges.any (fun e =>
          e.source_id == mt.task_id && e.target_id == ct.task_id) = false := by
        simpa using hguard
      split
      case h_1 g2 hadd =>
        right
        refine ⟨mt, ct, heq1, heq2, ?_⟩
        have hnd : g.edges.any (fun e2 => e2.samePair
            { source_id := mt.task_id, target_id := ct.task_id,
              label := some "CreateObjects" : Edge }) = false := by
          simpa [Edge.samePair] using hany
        rw [add_edge_ok_shape g _ g2 hnd hadd]
      case h_2 err hadd => exact Or.inl rfl
    case isFalse hguard => exact Or.inl rfl
  case h_2 ha hb => exact Or.inl rfl

/-- `linkStep2` only ever appends edges and warnings. -/
theorem linkStep2_extends (g0 : FlowGraph) (st : FlowGraph × List String) :
    (∃ es, (linkStep2 g0 st).1.edges = st.1.edges ++ es) ∧
    (∃ ws, (linkStep2 g0 st).2 = st.2 ++ ws) := by
  unfold linkStep2
  split
  case h_1 ct rt heq1 heq2 =>
    dsimp only
    split
    case isTrue hguard =>
      split
      case h_1 g2 hadd =>
        have hany : st.1.edges.any (fun e =>
            e.source_id == ct.task_id && e.target_id == rt.task_id) = false := by
          simpa using hguard
        have hnd : st.1.edges.any (fun e2 => e2.samePair
            { source_id := ct.task_id, target_id := rt.task_id,
              label := some "GenerateReport" : Edge }) = false := by
          simpa [Edge.samePair] using hany
        rw [add_edge_ok_shape st.1 _ g2 hnd hadd]
        exact ⟨⟨_, rfl⟩, ⟨_, rfl⟩⟩
      case h_2 err hadd => exact ⟨⟨[], by simp⟩, ⟨[], by simp⟩⟩
    case isFalse hguard => exact ⟨⟨[], by simp⟩, ⟨[], by simp⟩⟩
  case h_2 ha hb => exact ⟨⟨[], by simp⟩, ⟨[], by simp⟩⟩

/-- When the first block's conditions hold (unique candidates, no
existing mapping→create edge, endpoints present), it appends exactly
the new edge and warning. -/
theorem linkStep1_applied (g : FlowGraph) (w : List String) (mt ct : Task)
    (hm : mappingTasksOf g = [mt]) (hc : createTasksOf g = [ct])
    (hno : g.edges.any (fun e =>
        e.source_id == mt.task_id && e.target_id == ct.task_id) = false)
    (hs : g.hasTask mt.task_id = true) (ht : g.hasTask ct.task_id = true) :
    linkStep1 g w =
      ({ g with edges := g.edges ++
          [{ source_id := mt.task_id, target_id := ct.task_id,
             label := some "CreateObjects" }] },
       w ++ ["Linked Mapping -> CreateObjects (auto)"]) := by
  unfold linkStep1
  rw [hm, hc]
  dsimp only
  have hguard : (!g.edges.any fun e =>
      e.source_id == mt.task_id && e.target_id == ct.task_id) = true := by
    simp [hno]
  rw [if_pos hguard]
  have hdup : g.edges.any (fun e2 => e2.samePair
      { source_id := mt.task_id, target_id := ct.task_id,
        label := some "CreateObjects" : Edge }) = false := by
    simpa [Edge.samePair] using hno
  have hadd : g.add_edge
      { source_id := mt.task_id, target_id := ct.task_id,
        label := some "CreateObjects" } =
      Except.ok { g with edges := g.edges ++
        [{ source_id := mt.task_id, target_id := ct.task_id,
           label := some "CreateObjects" }] } := by
    unfold FlowGraph.add_edge
    simp [hs, ht, hdup]
  rw [hadd]

/-- When the second block's conditions hold, it appends exactly the
create→report edge and warning to the state left by the first block. -/
theorem linkStep2_applied (g0 : FlowGraph) (st : FlowGraph × List String) (ct rt : Task)
    (hc : createTasksOf g0 = [ct]) (hr : reportTasksOf g0 = [rt])
    (hno : st.1.edges.any (fun e =>
        e.source_id == ct.task_id && e.target_id == rt.task_id) = false)
    (hs : st.1.hasTask ct.task_id = true) (ht : st.1.hasTask rt.task_id = true) :
    linkStep2 g0 st =
      ({ st.1 with edges := st.1.edges ++
          [{ source_id := ct.task_id, target_id := rt.task_id,
             label := some "GenerateReport" }] },
       st.2 ++ ["Linked CreateObjects -> GenerateReport (auto)"]) := by
  unfold linkStep2
  rw [hc, hr]
  dsimp only
  have hguard : (!st.1.edges.any fun e =>
      e.source_id == ct.task_id && e.target_id == rt.task_id) = true := by
    simp [hno]
  rw [if_pos hguard]
  have hdup : st.1.edges.any (fun e2 => e2.samePair
      { source_id := ct.task_id, target_id := rt.task_id,
        label := some "GenerateReport" : Edge }) = false := by
    simpa [Edge.samePair] using hno
  have hadd : st.1.add_edge
      { source_id := ct.task_id, target_id := rt.task_id,
        label := some "GenerateReport" } =
      Except.ok { st.1 with edges := st.1.edges ++
        [{ source_id := ct.task_id, target_id := rt.task_id,
           label := some "GenerateReport" }] } := by
    unfold FlowGraph.add_edge
    simp [hs, ht, hdup]
  rw [hadd]

/-- Without exactly one candidate on each side, the first block does
nothing. -/
theorem linkStep1_not_applied (g : FlowGraph) (w : List String)
    (h : (mappingTasksOf g).length ≠ 1 ∨ (createTasksOf g).length ≠ 1) :
    linkStep1 g w = (g, w) := by
  unfold linkStep1
  split
  case h_1 mt ct heq1 heq2 =>
    exfalso
    rcases h with h | h
    · exact h (by rw [heq1]; rfl)
    · exact h (by rw [heq2]; rfl)
  case h_2 ha hb => rfl

/-- Without exactly one candidate on each side, the second block does
nothing. -/
theorem linkStep2_not_applied (g0 : FlowGraph) (st : FlowGraph × List String)
    (h : (createTasksOf g0).length ≠ 1 ∨ (reportTasksOf g0).length ≠ 1) :
    linkStep2 g0 st = st := by
  unfold linkStep2
  split
  case h_1 ct rt heq1 heq2 =>
    exfalso
    rcases h with h | h
    · exact h (by rw [heq1]; rfl)
    · exact h (by rw [heq2]; rfl)
  case h_2 ha hb => rfl

/-- A singleton filter result is a member satisfying the predicate. -/
theorem singleton_filter_mem {l : List Task} {p : Task → Bool} {t : Task}
    (h : l.filter p = [t]) : t ∈ l ∧ p t = true := by
  have hm : t ∈ l.filter p := by
    rw [h]; exact List.mem_singleton_self t
  exact ⟨(List.mem_filter.mp hm).1, (List.mem_filter.mp hm).2⟩

/-- C6: for every graph whose task mapping is dict-shaped (keys are the
tasks' own ids and are unique, as `add_task` guarantees), the
`_link_known_terminal_chain` step of `build()` behaves as claimed:
(1) with exactly one "mapping"-like and one "create"-like task and no
edge from the former to the latter, a `dependency`-typed edge between
them is synthesized and the auto-link warning recorded; (2) the same
between the unique "create"-like and "report"-like tasks; (3) when
either side of both pairs has zero or several candidates, graph and
warnings are returned unchanged — no edge is synthesized. -/
theorem C6_terminal_chain_autolink (g : FlowGraph) (w : List String)
    (hd : dictInv g) :
    (∀ mt ct, mappingTasksOf g = [mt] → createTasksOf g = [ct] →
        g.edges.any (fun e =>
          e.source_id == mt.task_id && e.target_id == ct.task_id) = false →
        (∃ e ∈ (linkKnownTerminalChain g w).1.edges,
            e.source_id = mt.task_id ∧ e.target_id = ct.task_id ∧
            e.edge_type = "dependency") ∧
        "Linked Mapping -> CreateObjects (auto)" ∈ (linkKnownTerminalChain g w).2) ∧
    (∀ ct rt, createTasksOf g = [ct] → reportTasksOf g = [rt] →
        g.edges.any (fun e =>
          e.source_id == ct.task_id && e.target_id == rt.task_id) = false →
        (∃ e ∈ (linkKnownTerminalChain g w).1.edges,
            e.source_id = ct.task_id ∧ e.target_id = rt.task_id ∧
            e.edge_type = "dependency") ∧
        "Linked CreateObjects -> GenerateReport (auto)" ∈ (linkKnownTerminalChain g w).2) ∧
    (((mappingTasksOf g).length ≠ 1 ∨ (createTasksOf g).length ≠ 1) →
     ((createTasksOf g).length ≠ 1 ∨ (reportTasksOf g).length ≠ 1) →
     linkKnownTerminalChain g w = (g, w)) := by
  refine ⟨?_, ?_, ?_⟩
  · -- (1) mapping → create
    intro mt ct hm hc hno
    have hmemM := singleton_filter_mem (l := g.tasks.map Prod.snd) (by simpa [mappingTasksOf] using hm)
    have hmemC := singleton_filter_mem (l := g.tasks.map Prod.snd) (by simpa [createTasksOf] using hc)
    have hs := mem_values_hasTask g hd.1 mt hmemM.1
    have ht := mem_values_hasTask g hd.1 ct hmemC.1
    have h1 := linkStep1_applied g w mt ct hm hc hno hs ht
    unfold linkKnownTerminalChain
    rw [h1]
    obtain ⟨⟨es, hes⟩, ⟨ws, hws⟩⟩ := linkStep2_extends g
      ({ g with edges := g.edges ++
          [{ source_id := mt.task_id, target_id := ct.task_id,
             label := some "CreateObjects" }] },
       w ++ ["Linked Mapping -> CreateObjects (auto)"])
    constructor
    · refine ⟨{ source_id := mt.task_id, target_id := ct.task_id,
                label := some "CreateObjects" }, ?_, rfl, rfl, rfl⟩
      rw [hes]
      simp
    · rw [hws]
      simp
  · -- (2) create → report
    intro ct rt hc hr hno
    have hmemC := singleton_filter_mem (l := g.tasks.map Prod.snd) (by simpa [createTasksOf] using hc)
    have hmemR := singleton_filter_mem (l := g.tasks.map Prod.snd) (by simpa [reportTasksOf] using hr)
    have hsc := mem_values_hasTask g hd.1 ct hmemC.1
    have hsr := mem_values_hasTask g hd.1 rt hmemR.1
    unfold linkKnownTerminalChain
    rcases linkStep1_cases g w with h1 | ⟨mt, ct2, hm2, hc2, h1⟩
    · rw [h1]
      have h2 := linkStep2_applied g (g, w) ct rt hc hr hno hsc hsr
      rw [h2]
      constructor
      · refine ⟨{ source_id := ct.task_id, target_id := rt.task_id,
                  label := some "GenerateReport" }, ?_, rfl, rfl, rfl⟩
        simp
      · simp
    · have hct2 : ct2 = ct := by
        have hll : ([ct2] : List Task) = [ct] := hc2.symm.trans hc
        simpa using hll
      rw [hct2] at h1
      have hmemM := singleton_filter_mem (l := g.tasks.map Prod.snd) (by simpa [mappingTasksOf] using hm2)
      have hmtype : mt.task_type ∈ mappingTypeNames := by simpa using hmemM.2
      have hctype : ct.task_type ∈ createTypeNames := by simpa using hmemC.2
      have hmc : (mt.task_id == ct.task_id) = false := by
        apply beq_eq_false_iff_ne.mpr
        intro hid
        have heq := unique_value_by_id g hd hmemM.1 hmemC.1 hid
        exact mapping_create_type_disjoint mt.task_type hmtype (heq ▸ hctype)
      rw [h1]
      have hno1 : (FlowGraph.edges { g with edges := g.edges ++
          [{ source_id := mt.task_id, target_id := ct.task_id,
             label := some "CreateObjects" }] }).any (fun e =>
          e.source_id == ct.task_id && e.target_id == rt.task_id) = false := by
        simp only [List.any_append, Bool.or_eq_false_iff]
        refine ⟨hno, ?_⟩
        simp [hmc]
      have h2 := linkStep2_applied g
        ({ g with edges := g.edges ++
            [{ source_id := mt.task_id, target_id := ct.task_id,
               label := some "CreateObjects" }] },
         w ++ ["Linked Mapping -> CreateObjects (auto)"]) ct rt hc hr hno1 hsc hsr
      rw [h2]
      constructor
      · refine ⟨{ source_id := ct.task_id, target_id := rt.task_id,
                  label := some "GenerateReport" }, ?_, rfl, rfl, rfl⟩
        simp
      · simp
  · -- (3) no unique candidates: untouched
    intro h1 h2
    unfold linkKnownTerminalChain
    rw [linkStep1_not_applied g w h1, linkStep2_not_applied g (g, w) h2]

/-- Concrete chain graph for the C6 witness: one task of each of the
three privileged types and no edges. -/
def gChainW : FlowGraph :=
  { object_name := "w", object_path := "/w",
    tasks := [("m", mkT "m" "Mapping"), ("c", mkT "c" "CreateObjects"),
              ("r", mkT "r" "GenerateReport")] }

/-- Concrete graph with two "mapping"-like tasks and nothing else, for
the no-synthesis part of the C6 witness. -/
def gNoUniqueW : FlowGraph :=
  { object_name := "w", object_path := "/w",
    tasks := [("m1", mkT "m1" "Mapping"), ("m2", mkT "m2" "TransformMap")] }

/-- Witness for C6 at concrete inputs: on the chain graph both edges
are synthesized with their warnings; on the two-mapping graph nothing
changes. -/
theorem C6_terminal_chain_autolink_witness :
    ((∃ e ∈ (linkKnownTerminalChain gChainW []).1.edges,
        e.source_id = "m" ∧ e.target_id = "c" ∧ e.edge_type = "dependency") ∧
     "Linked Mapping -> CreateObjects (auto)" ∈ (linkKnownTerminalChain gChainW []).2) ∧
    ((∃ e ∈ (linkKnownTerminalChain gChainW []).1.edges,
        e.source_id = "c" ∧ e.target_id = "r" ∧ e.edge_type = "dependency") ∧
     "Linked CreateObjects -> GenerateReport (auto)" ∈ (linkKnownTerminalChain gChainW []).2) ∧
    linkKnownTerminalChain gNoUniqueW [] = (gNoUniqueW, []) :=
  ⟨(C6_terminal_chain_autolink gChainW [] (by decide)).1
      (mkT "m" "Mapping") (mkT "c" "CreateObjects") rfl rfl (by decide),
   (C6_terminal_chain_autolink gChainW [] (by decide)).2.1
      (mkT "c" "CreateObjects") (mkT "r" "GenerateReport") rfl rfl (by decide),
   (C6_terminal_chain_autolink gNoUniqueW [] (by decide)).2.2
      (by decide) (by decide)⟩

-- ===========================================================================
-- YAML configuration parser  (src/parsers/yaml_parser.py)
-- ===========================================================================

/-- A loaded YAML document value (result of `yaml.load` with the
custom loader, whose multi-constructor makes unknown tags transparent,
so tagged nodes are already plain values here).  Mapping keys are
modelled as strings — the configuration formats key exclusively by
string. -/
inductive YValue where
  | str : String → YValue
  | int : Int → YValue
  | bool : Bool → YValue
  | null : YValue
  | list : List YValue → YValue
  | map : List (String × YValue) → YValue
deriving Repr, Inhabited

/-- Python `dict.get(k)` on a loaded mapping. -/
def yGet (kvs : List (String × YValue)) (k : String) : Option YValue :=
  (kvs.find? (fun p => p.1 == k)).map Prod.snd

/-- Python `.get(...)` on a value that must be a dict: raises
`AttributeError` otherwise. -/
def asMap : YValue → Except String (List (String × YValue))
  | .map kvs => .ok kvs
  | _ => .error "AttributeError: object has no attribute get"

/-- Python `tuple(x)`: a list yields its elements, a string its
characters, anything else raises `TypeError`. -/
def pyTupleY : YValue → Except String (List YValue)
  | .list xs => .ok xs
  | .str s => .ok (s.toList.map (fun c => .str (String.singleton c)))
  | _ => .error "TypeError: object is not iterable"

mutual

/-- Python `str()` of a loaded YAML value. -/
def yStr : YValue → String
  | .str s => s
  | .int n => toString n
  | .bool b => if b then "True" else "False"
  | .null => "None"
  | .list xs => "[" ++ String.intercalate ", " (yReprList xs) ++ "]"
  | .map kvs => "\x7b" ++ String.intercalate ", " (yReprPairs kvs) ++ "\x7d"

/-- Python `repr()` of a loaded YAML value. -/
def yRepr : YValue → String
  | .str s => pySQ ++ s ++ pySQ
  | v => yStr v

/-- `repr` of each element of a list. -/
def yReprList : List YValue → List String
  | [] => []
  | v :: vs => yRepr v :: yReprList vs

/-- `repr` of each key/value pair of a mapping. -/
def yReprPairs : List (String × YValue) → List String
  | [] => []
  | (k, v) :: kvs => (pySQ ++ k ++ pySQ ++ ": " ++ yRepr v) :: yReprPairs kvs

end

/-- Python `==` between a loaded value and a string literal. -/
def yBeqStr (v : YValue) (s : String) : Bool :=
  match v with
  | .str t => t == s
  | _ => false

/-- Embedding of the `MergeRule` dataclass.  Fields that the source
never validates keep the loaded-value type. -/
structure MergeRule where
  table : String
  left_on : Option YValue := Option.none
  right_on : Option YValue := Option.none
  merge_type : YValue := .str "left"
  suffixes : Option (List YValue) := Option.none
  columns : Option YValue := Option.none
  description : YValue := .str ""
deriving Repr

/-- Embedding of the `FilterCriteria` dataclass. -/
structure FilterCriteria where
  criteria_type : YValue
  criteria_id : YValue
  field : Option YValue := Option.none
  operator : Option YValue := Option.none
  value : Option YValue := Option.none
  keep : Option YValue := Option.none
  subset : Option YValue := Option.none
  negate : YValue := .bool false
  description : YValue := .str ""
deriving Repr

/-- Embedding of the `MappingRule` dataclass. -/
structure MappingRule where
  rule_id : YValue
  description : YValue
  action : YValue
  value : Option YValue := Option.none
  target : Option YValue := Option.none
  overwrite : YValue := .bool false
  object : Option YValue := Option.none
  source : Option YValue := Option.none
  comment : YValue := .str ""
deriving Repr

/-- Embedding of the `YAMLAnalysis` dataclass. -/
structure YAMLAnalysis where
  file_path : String
  file_type : String
  merge_rules : List MergeRule := []
  filter_criteria : List FilterCriteria := []
  mapping_rules : List MappingRule := []
  raw_data : List (String × YValue) := []
  errors : List String := []
  warnings : List String := []
deriving Repr

/-- `YAMLParser._determine_file_type`. -/
def determineFileType (data : YValue) : String :=
  match data with
  | .list items =>
    if items.all (fun it =>
        match it with
        | .map kvs => (yGet kvs "criteria").isSome
        | _ => false) then "filter"
    else "unknown"
  | .map kvs =>
    if (yGet kvs "merging_rules").isSome then "merge"
    else if (yGet kvs "filter").isSome || (yGet kvs "filters").isSome then "filter"
    else if (yGet kvs "mapping_rules").isSome then "mapping"
    else "unknown"
  | _ => "unknown"

/-- One iteration of the `_parse_merge_rules` loop: `ok none` when the
item is silently skipped (not a dict with a `table` key), `ok (some r)`
on success, `error` when a caught exception produces the per-item
warning. -/
def parseMergeRuleItem (item : YValue) : Except String (Option MergeRule) :=
  match item with
  | .map kvs =>
    match yGet kvs "table" with
    | Option.none => .ok Option.none
    | some tableRef =>
      let table_name :=
        match tableRef with
        | .str s => (s.replace "!env" "").trim
        | v => yStr v
      let lpv := (yGet kvs "loading_params").getD (.map [])
      let mpv := (yGet kvs "merging_params").getD (.map [])
      match asMap mpv with
      | .error e => .error e
      | .ok mp =>
        match pyTupleY ((yGet mp "suffixes").getD (.list [.str "", .str ""])) with
        | .error e => .error e
        | .ok suf =>
          match asMap lpv with
          | .error e => .error e
          | .ok lp =>
            .ok (some
              { table := table_name,
                left_on := yGet mp "left_on",
                right_on := yGet mp "right_on",
                merge_type := (yGet mp "how").getD (.str "left"),
                suffixes := some suf,
                columns := yGet lp "columns",
                description := (yGet kvs "description").getD (.str "") })
  | _ => .ok Option.none

/-- The indexed loop of `_parse_merge_rules`: accumulates rules and
per-item warnings. -/
def parseMergeItems : Nat → List YValue → List MergeRule × List String
  | _, [] => ([], [])
  | idx, item :: rest =>
    let tail := parseMergeItems (idx + 1) rest
    match parseMergeRuleItem item with
    | .ok Option.none => tail
    | .ok (some r) => (r :: tail.1, tail.2)
    | .error e =>
      (tail.1, ("Failed to parse merge rule " ++ toString idx ++ ": " ++ e) :: tail.2)

/-- `YAMLParser._parse_merge_rules` on a dict document: returns
(rules, errors, warnings). -/
def parseMergeRules (kvs : List (String × YValue)) :
    List MergeRule × List String × List String :=
  match (yGet kvs "merging_rules").getD (.list []) with
  | .list items =>
    let r := parseMergeItems 0 items
    (r.1, [], r.2)
  | _ => ([], ["merging_rules must be a list"], [])

/-- One iteration of the `_parse_filter_criteria` loop: the produced
criterion if any, and the warnings the iteration emits. -/
def parseFilterItem (idx : Nat) (item : YValue) :
    Option FilterCriteria × List String :=
  match item with
  | .map kvs =>
    let criteria_id := (yGet kvs "criteria_id").getD (.str ("filter_" ++ toString idx))
    let description := (yGet kvs "description").getD (.str "")
    match (yGet kvs "criteria").getD (.map []) with
    | .map cdef =>
      let ctype := (yGet cdef "criteria").getD (.str "unknown")
      if yBeqStr ctype "comparison" then
        (some { criteria_type := .str "comparison", criteria_id := criteria_id,
                field := yGet cdef "field", operator := yGet cdef "operator",
                value := yGet cdef "value", description := description }, [])
      else if yBeqStr ctype "is_unique" then
        (some { criteria_type := .str "is_unique", criteria_id := criteria_id,
                keep := some ((yGet cdef "keep").getD (.str "first")),
                subset := yGet cdef "subset", description := description }, [])
      else if yBeqStr ctype "is_null" then
        (some { criteria_type := .str "is_null", criteria_id := criteria_id,
                field := yGet cdef "field",
                negate := (yGet cdef "negate").getD (.bool false),
                description := description }, [])
      else if yBeqStr ctype "is_empty" then
        (some { criteria_type := .str "is_empty", criteria_id := criteria_id,
                field := yGet cdef "field",
                negate := (yGet cdef "negate").getD (.bool false),
                description := description }, [])
      else
        (some { criteria_type := ctype, criteria_id := criteria_id,
                description := description }, [])
    | _ => (Option.none, [])
  | _ => (Option.none, ["Filter " ++ toString idx ++ " is not a dictionary"])

/-- The indexed loop of `_parse_filter_criteria`. -/
def parseFilterItems : Nat → List YValue → List FilterCriteria × List String
  | _, [] => ([], [])
  | idx, item :: rest =>
    let hd := parseFilterItem idx item
    let tail := parseFilterItems (idx + 1) rest
    (match hd.1 with
      | some c => c :: tail.1
      | Option.none => tail.1,
     hd.2 ++ tail.2)

/-- `YAMLParser._parse_filter_criteria`: the filter list comes from the
top-level sequence itself or the `filters`/`filter` key. -/
def parseFilterCriteria (data : YValue) :
    List FilterCriteria × List String × List String :=
  let filterList :=
    match data with
    | .list items => YValue.list items
    | .map kvs => (yGet kvs "filters").getD ((yGet kvs "filter").getD (.list []))
    | _ => .list []
  match filterList with
  | .list items =>
    let r := parseFilterItems 0 items
    (r.1, [], r.2)
  | _ => ([], ["Filter rules must be a list"], [])

/-- One iteration of the `_parse_mapping_rules` loop. -/
def parseMappingItem (idx : Nat) (item : YValue) :
    Option MappingRule × List String :=
  match item with
  | .map kvs =>
    (some { rule_id := (yGet kvs "id").getD (.str ("mapping_" ++ toString idx)),
            description := (yGet kvs "description").getD (.str ""),
            action := (yGet kvs "action").getD (.str "unknown"),
            value := yGet kvs "value",
            target := yGet kvs "target",
            overwrite := (yGet kvs "overwrite").getD (.bool false),
            object := yGet kvs "object",
            source := yGet kvs "source",
            comment := (yGet kvs "comment").getD (.str "") }, [])
  | _ => (Option.none, ["Mapping rule " ++ toString idx ++ " is not a dictionary"])

/-- The indexed loop of `_parse_mapping_rules`. -/
def parseMappingItems : Nat → List YValue → List MappingRule × List String
  | _, [] => ([], [])
  | idx, item :: rest =>
    let hd := parseMappingItem idx item
    let tail := parseMappingItems (idx + 1) rest
    (match hd.1 with
      | some r => r :: tail.1
      | Option.none => tail.1,
     hd.2 ++ tail.2)

/-- `YAMLParser._parse_mapping_rules` on a dict document. -/
def parseMappingRules (kvs : List (String × YValue)) :
    List MappingRule × List String × List String :=
  match (yGet kvs "mapping_rules").getD (.list []) with
  | .list items =>
    let r := parseMappingItems 0 items
    (r.1, [], r.2)
  | _ => ([], ["mapping_rules must be a list"], [])

/-- `YAMLParser.parse`: dispatches on the loaded document.  The load
outcome stands for `yaml.load(self.raw_content, Loader=CustomYAMLLoader)`:
`error` for a raised `YAMLError`, `ok none` for an empty document,
`ok (some data)` otherwise.  All content errors are collected, never
raised. -/
def YAMLParser.parse (path fileName : String)
    (loadResult : Except String (Option YValue)) : YAMLAnalysis :=
  let base : YAMLAnalysis := { file_path := path, file_type := "unknown" }
  match loadResult with
  | .error e => { base with errors := ["YAML parse error: " ++ e] }
  | .ok Option.none => { base with warnings := ["YAML file is empty"] }
  | .ok (some data) =>
    let raw := (match data with | .map kvs => kvs | _ => [])
    let ft := determineFileType data
    if ft == "merge" then
      let r := (match data with
        | .map kvs => parseMergeRules kvs
        | _ => ([], [], []))
      { base with
        raw_data := raw, file_type := ft,
        merge_rules := r.1, errors := r.2.1, warnings := r.2.2 }
    else if ft == "filter" then
      let r := parseFilterCriteria data
      { base with
        raw_data := raw, file_type := ft,
        filter_criteria := r.1, errors := r.2.1, warnings := r.2.2 }
    else if ft == "mapping" then
      let r := (match data with
        | .map kvs => parseMappingRules kvs
        | _ => ([], [], []))
      { base with
        raw_data := raw, file_type := ft,
        mapping_rules := r.1, errors := r.2.1, warnings := r.2.2 }
    else
      { base with
        raw_data := raw, file_type := ft,
        warnings := ["Unknown YAML file type: " ++ fileName] }

-- ===========================================================================
-- C10  (empty YAML document)
-- ===========================================================================

/-- C10: when the file content loads to an empty document (`None`),
`YAMLParser.parse` returns without raising a `YAMLAnalysis` with
file type `unknown`, no merge/filter/mapping rules, no errors and
exactly the single warning that the file is empty. -/
theorem C10_empty_yaml_document (path fileName : String) :
    (YAMLParser.parse path fileName (Except.ok Option.none)).file_type = "unknown" ∧
    (YAMLParser.parse path fileName (Except.ok Option.none)).merge_rules = [] ∧
    (YAMLParser.parse path fileName (Except.ok Option.none)).filter_criteria = [] ∧
    (YAMLParser.parse path fileName (Except.ok Option.none)).mapping_rules = [] ∧
    (YAMLParser.parse path fileName (Except.ok Option.none)).errors = [] ∧
    (YAMLParser.parse path fileName (Except.ok Option.none)).warnings = ["YAML file is empty"] :=
  ⟨rfl, rfl, rfl, rfl, rfl, rfl⟩

-- ===========================================================================
-- C9  (merging_rules round-trip)
-- ===========================================================================

/-- Modelled from the spec: a well-formed `merging_rules` item — "each
item a mapping with a string `table` plus loading/merging parameter
groups": string join keys, an optional join kind, an optional suffix
pair, an optional column subset and an optional description. -/
structure MergeRuleSpec where
  table : String
  left_on : Option (List String) := Option.none
  right_on : Option (List String) := Option.none
  how : Option String := Option.none
  suffixes : Option (String × String) := Option.none
  columns : Option (List String) := Option.none
  description : Option String := Option.none

/-- Modelled from the spec: serializing one well-formed rule item to a
configuration file and loading it back yields this document value
(YAML serialization round-trips the document unchanged; absent
optional fields are omitted). -/
def encodeMergeRule (r : MergeRuleSpec) : YValue :=
  .map ([("table", .str r.table)]
    ++ (match r.description with
        | some d => [("description", YValue.str d)]
        | Option.none => [])
    ++ [("loading_params", .map
          (match r.columns with
           | some cs => [("columns", YValue.list (cs.map YValue.str))]
           | Option.none => []))]
    ++ [("merging_params", .map
          ((match r.left_on with
            | some l => [("left_on", YValue.list (l.map YValue.str))]
            | Option.none => [])
        ++ (match r.right_on with
            | some l => [("right_on", YValue.list (l.map YValue.str))]
            | Option.none => [])
        ++ (match r.how with
            | some h => [("how", YValue.str h)]
            | Option.none => [])
        ++ (match r.suffixes with
            | some p => [("suffixes", YValue.list [YValue.str p.1, YValue.str p.2])]
            | Option.none => [])))])

/-- Modelled from the spec: the whole serialized `merging_rules`
document. -/
def encodeMergeDoc (rs : List MergeRuleSpec) : YValue :=
  .map [("merging_rules", .list (rs.map encodeMergeRule))]

/-- The `MergeRule` the parser reproduces from a serialized item: same
table (with the environment-variable prefix convention stripped), same
join keys, join kind defaulting to `left`, suffix pair defaulting to
the empty/empty pair. -/
def expectedMergeRule (r : MergeRuleSpec) : MergeRule :=
  { table := (r.table.replace "!env" "").trim,
    left_on := r.left_on.map (fun l => YValue.list (l.map YValue.str)),
    right_on := r.right_on.map (fun l => YValue.list (l.map YValue.str)),
    merge_type := .str (r.how.getD "left"),
    suffixes := some [YValue.str (r.suffixes.getD ("", "")).1,
                      YValue.str (r.suffixes.getD ("", "")).2],
    columns := r.columns.map (fun cs => YValue.list (cs.map YValue.str)),
    description := .str (r.description.getD "") }

/-- Parsing one serialized item reproduces the expected rule. -/
theorem parseMergeRuleItem_encode (r : MergeRuleSpec) :
    parseMergeRuleItem (encodeMergeRule r) = .ok (some (expectedMergeRule r)) := by
  rcases r with ⟨table, lo, ro, how, suf, cols, desc⟩
  cases lo <;> cases ro <;> cases how <;> cases suf <;> cases cols <;> cases desc <;> rfl

/-- Parsing the serialized item list reproduces all expected rules with
no per-item warnings. -/
theorem parseMergeItems_encode (rs : List MergeRuleSpec) : ∀ idx : Nat,
    parseMergeItems idx (rs.map encodeMergeRule) = (rs.map expectedMergeRule, []) := by
  induction rs with
  | nil => intro idx; rfl
  | cons r rest ih =>
    intro idx
    simp only [List.map_cons, parseMergeItems, parseMergeRuleItem_encode r, ih (idx + 1)]

/-- C9: round-trip — parsing a configuration file produced by
serializing a well-formed `merging_rules` structure reproduces, for
every rule, the same table name (environment-variable prefix
stripped), the same left/right join keys, the same join kind
(defaulting to `left` when absent) and the same suffix pair
(defaulting to the empty/empty pair when absent), with no errors or
warnings. -/
theorem C9_merge_rules_roundtrip (path fileName : String) (rs : List MergeRuleSpec) :
    (YAMLParser.parse path fileName (Except.ok (some (encodeMergeDoc rs)))).file_type = "merge" ∧
    (YAMLParser.parse path fileName (Except.ok (some (encodeMergeDoc rs)))).merge_rules =
      rs.map expectedMergeRule ∧
    (YAMLParser.parse path fileName (Except.ok (some (encodeMergeDoc rs)))).errors = [] ∧
    (YAMLParser.parse path fileName (Except.ok (some (encodeMergeDoc rs)))).warnings = [] := by
  have hitems := parseMergeItems_encode rs 0
  refine ⟨rfl, ?_, rfl, ?_⟩
  · show (parseMergeItems 0 (rs.map encodeMergeRule)).1 = rs.map expectedMergeRule
    rw [hitems]
  · show (parseMergeItems 0 (rs.map encodeMergeRule)).2 = []
    rw [hitems]

-- ===========================================================================
-- AST-based source parser  (src/parsers/python_parser.py)
-- ===========================================================================

/-- Python expression AST, restricted to the node kinds the parser
inspects (`ast.Constant`, `ast.Name`, `ast.Call` with keyword
arguments, `ast.Attribute`, `ast.Subscript`, `ast.List`, `ast.Tuple`,
`ast.Dict`).  A keyword argument name is `none` for `**kwargs`; a dict
key is `none` for `**`-unpacking.  Positional call arguments are
omitted because no pass of the source reads them. -/
inductive PyExpr where
  | const : PVal → PyExpr
  | name : String → PyExpr
  | call : PyExpr → List (Option String × PyExpr) → PyExpr
  | attr : PyExpr → String → PyExpr
  | subscript : PyExpr → PyExpr → PyExpr
  | plist : List PyExpr → PyExpr
  | ptuple : List PyExpr → PyExpr
  | pdict : List (Option PyExpr × PyExpr) → PyExpr
deriving Repr, Inhabited

/-- Python statement AST: assignments (targets, value, line number),
expression statements, or anything else (skipped by every pass). -/
inductive PyStmt where
  | assign : List PyExpr → PyExpr → Nat → PyStmt
  | exprStmt : PyExpr → PyStmt
  | other : PyStmt
deriving Repr, Inhabited

/-- A parsed module: its statements in order.  `ast.walk` over the
claims' flat modules visits exactly the module-level statements, in
order. -/
abbrev PyModule := List PyStmt

/-- The task-type registry as the parser sees it:
`ConfigLoader.get_task_definitions()`, a mapping from type name to its
definition dict. -/
abbrev TaskDefs := List (String × List (String × PVal))

/-- `ASTPythonParser._get_call_name` on the call's `func` node. -/
def getCallName : PyExpr → Option String
  | .name n => some n
  | .attr _ a => some a
  | _ => Option.none

mutual

/-- `ASTPythonParser._resolve_value`: constants resolve to themselves,
names to their text, calls to a `"<name>(...)"` placeholder, dicts and
sequences recursively (dict entries with a falsy resolved key are
dropped), attribute chains to `"<str(base)>.<attr>"`, anything else
(e.g. subscripts) to `None`. -/
def resolveValue : PyExpr → PVal
  | .const v => v
  | .name n => .str n
  | .call f _ =>
    .str ((match getCallName f with
           | some n => n
           | Option.none => "None") ++ "(...)")
  | .pdict kvs => .dict (resolveDictPairs kvs)
  | .plist es => .list (resolveList es)
  | .ptuple es => .tuple (resolveList es)
  | .attr base a => .str (pyStr (resolveValue base) ++ "." ++ a)
  | .subscript _ _ => .none

/-- Element-wise resolution of a sequence literal. -/
def resolveList : List PyExpr → List PVal
  | [] => []
  | e :: es => resolveValue e :: resolveList es

/-- Resolution of dict-literal entries: a `none` key (dict unpacking)
resolves to `None`; entries whose resolved key is falsy are dropped. -/
def resolveDictPairs : List (Option PyExpr × PyExpr) → List (PVal × PVal)
  | [] => []
  | (k, v) :: kvs =>
    let key := (match k with
                | some ke => resolveValue ke
                | Option.none => PVal.none)
    let val := resolveValue v
    if pyTruthy key then (key, val) :: resolveDictPairs kvs
    else resolveDictPairs kvs

end

/-- The inner keyword scan of `_extract_task_name`: the first `name=`
constant inside a call bound to a keyword. -/
def taskNameFromInner : List (Option String × PyExpr) → Option PVal
  | [] => Option.none
  | (arg, v) :: rest =>
    if arg == some "name" then
      match v with
      | .const c => some c
      | _ => taskNameFromInner rest
    else taskNameFromInner rest

/-- `ASTPythonParser._extract_task_name`: the `name=` constant inside a
`task_args=`-bound call argument. -/
def extractTaskName : List (Option String × PyExpr) → Option PVal
  | [] => Option.none
  | (arg, v) :: rest =>
    if arg == some "task_args" then
      match v with
      | .call _ inner =>
        match taskNameFromInner inner with
        | some c => some c
        | Option.none => extractTaskName rest
      | _ => extractTaskName rest
    else extractTaskName rest

/-- `ASTPythonParser._extract_parameters`: resolve every keyword
argument. -/
def extractParameters (kws : List (Option String × PyExpr)) :
    List (Option String × PVal) :=
  kws.map (fun p => (p.1, resolveValue p.2))

/-- `ASTPythonParser._extract_task_definitions`: every single-target
name assignment whose value is a call to a registered task type yields
a `Task` (id from the target, display name from `task_args(name=...)`
falling back to the id via Python `or`). -/
def extractTaskDefinitions (cfg : TaskDefs) (flowPath : String) (tree : PyModule) :
    List Task :=
  tree.foldl (fun acc stmt =>
    match stmt with
    | .assign [PyExpr.name var] (PyExpr.call f kws) lineno =>
      (match getCallName f with
       | some tt =>
         if (cfg.map Prod.fst).contains tt then
           acc ++ [{ task_id := var, task_type := tt,
                     task_name := (match extractTaskName kws with
                                   | some v => if pyTruthy v then v else .str var
                                   | Option.none => .str var),
                     parameters := extractParameters kws,
                     line_number := some lineno,
                     file_path := some flowPath }]
         else acc
       | Option.none => acc)
    | _ => acc) []

/-- `ASTPythonParser._get_call_object`: the receiver variable of a
method call. -/
def getCallObject : PyExpr → Option String
  | .name n => some n
  | _ => Option.none

/-- `ASTPythonParser._extract_task_list_from_call`: task ids named by
the `task`/`task_list` keyword (or a specific keyword) as a single name
or a list of names. -/
def extractTaskListFromCall (kws : List (Option String × PyExpr))
    (paramName : Option String) : List String :=
  let names := (match paramName with
                | some p => [p]
                | Option.none => ["task", "task_list"])
  kws.foldl (fun acc p =>
    if (match p.1 with
        | some a => names.contains a
        | Option.none => false) then
      acc ++ (match p.2 with
              | .plist es => es.filterMap (fun e =>
                  match e with
                  | .name i => some i
                  | _ => Option.none)
              | .name i => [i]
              | _ => [])
    else acc) []

/-- Append an edge unless an edge with the same
`(source_id, target_id)` pair is already present (the `edge not in
edges` test under `Edge.__eq__`). -/
def addEdgeDedup (edges : List Edge) (e : Edge) : List Edge :=
  if edges.any (fun e2 => e2.samePair e) then edges else edges ++ [e]

/-- The pairs (source, target) contributed by one statement of
`_extract_dependencies`, restricted to pairs of known task ids. -/
def dependencyPairsOfStmt (task_ids : List String) (stmt : PyStmt) :
    List (String × String) :=
  match stmt with
  | .exprStmt (.call (.attr recv method) kws) =>
    let recvId := getCallObject recv
    let known := fun (i : Option String) =>
      match i with
      | some s => task_ids.contains s
      | Option.none => false
    if method == "set_upstream" then
      (extractTaskListFromCall kws Option.none).filterMap (fun up =>
        if task_ids.contains up && known recvId then
          recvId.map (fun t => (up, t))
        else Option.none)
    else if method == "set_downstream" then
      (extractTaskListFromCall kws Option.none).filterMap (fun down =>
        if known recvId && task_ids.contains down then
          recvId.map (fun s => (s, down))
        else Option.none)
    else if method == "set_dependencies" then
      (extractTaskListFromCall kws (some "upstream_tasks")).filterMap (fun up =>
        if task_ids.contains up && known recvId then
          recvId.map (fun t => (up, t))
        else Option.none)
    else []
  | _ => []

/-- `ASTPythonParser._extract_dependencies`: `dependency`-typed edges
from the three wiring idioms, duplicates by pair suppressed. -/
def extractDependencies (tree : PyModule) (tasks : List Task) : List Edge :=
  let task_ids := tasks.map Task.task_id
  tree.foldl (fun acc stmt =>
    (dependencyPairsOfStmt task_ids stmt).foldl (fun acc2 p =>
      addEdgeDedup acc2 { source_id := p.1, target_id := p.2, edge_type := "dependency" }) acc) []

/-- Python dict assignment on a metadata mapping: replace in place or
append (`Task.set_metadata`). -/
def setMeta (md : List (String × PVal)) (k : String) (v : PVal) :
    List (String × PVal) :=
  if md.any (fun p => p.1 == k) then
    md.map (fun p => if p.1 == k then (k, v) else p)
  else md ++ [(k, v)]

/-- Lookup with default on a task-definition dict (`dict.get`). -/
def defGet (d : List (String × PVal)) (k : String) (dflt : PVal) : PVal :=
  ((d.find? (fun p => p.1 == k)).map Prod.snd).getD dflt

/-- `ASTPythonParser._enrich_tasks` on one task: attach
color/category/icon from the registry when a (truthy, i.e. non-empty)
definition exists, then the display label (`str(task_name)`). -/
def enrichOne (cfg : TaskDefs) (t : Task) : Task :=
  let t1 :=
    match (cfg.find? (fun p => p.1 == t.task_type)).map Prod.snd with
    | some d =>
      if !d.isEmpty then
        let md1 := setMeta t.metadata "color" (defGet d "color" (.str "#F5F5F5"))
        let md2 := setMeta md1 "category" (defGet d "category" (.str "unknown"))
        let md3 := setMeta md2 "icon" (defGet d "icon" (.str ""))
        { t with metadata := md3 }
      else t
    | Option.none => t
  { t1 with metadata := setMeta t1.metadata "display_label" (.str (pyStr t1.task_name)) }

/-- `ASTPythonParser._enrich_tasks` over all tasks. -/
def enrichTasks (cfg : TaskDefs) (tasks : List Task) : List Task :=
  tasks.map (enrichOne cfg)

/-- `ASTPythonParser._extract_task_references`: names referenced
directly, in a list literal, or as the base of a subscript. -/
def extractTaskReferences : PyExpr → List String
  | .name i => [i]
  | .plist es => es.filterMap (fun e =>
      match e with
      | .name i => some i
      | _ => Option.none)
  | .subscript (.name i) _ => [i]
  | _ => []

/-- The (source, target) pairs contributed by one statement of
`_extract_implicit_dependencies`. -/
def implicitPairsOfStmt (task_ids : List String) (stmt : PyStmt) :
    List (String × String) :=
  match stmt with
  | .assign [PyExpr.name target] (PyExpr.call _ kws) _ =>
    if task_ids.contains target then
      kws.foldl (fun acc p =>
        if p.1 == some "input_table" || p.1 == some "input_paths" then
          acc ++ (extractTaskReferences p.2).filterMap (fun src =>
            if task_ids.contains src then some (src, target) else Option.none)
        else acc) []
    else []
  | _ => []

/-- `ASTPythonParser._extract_implicit_dependencies`:
`data_dependency`-typed edges inferred from input-designating
constructor keywords, duplicates by pair suppressed. -/
def extractImplicitDependencies (tree : PyModule) (tasks : List Task) : List Edge :=
  let task_ids := tasks.map Task.task_id
  tree.foldl (fun acc stmt =>
    (implicitPairsOfStmt task_ids stmt).foldl (fun acc2 p =>
      addEdgeDedup acc2 { source_id := p.1, target_id := p.2, edge_type := "data_dependency" }) acc) []

/-- Embedding of the `FlowAnalysis` dataclass. -/
structure FlowAnalysis where
  object_name : String
  tasks : List Task := []
  edges : List Edge := []
  raw_metadata : List (String × PVal) := []
  errors : List String := []
  warnings : List String := []
deriving Repr, Inhabited

/-- `ASTPythonParser.parse`: the four passes inside the `try` block.
The `astResult` argument stands for the outcome of
`ast.parse(self.source_code)`: a raised `SyntaxError` is the `error`
case, caught and recorded — `parse` itself always returns. -/
def ASTPythonParser.parse (objectName flowPath : String) (cfg : TaskDefs)
    (astResult : Except String PyModule) : FlowAnalysis :=
  match astResult with
  | .error e =>
    { object_name := objectName, errors := ["Python syntax error: " ++ e] }
  | .ok tree =>
    let tasks1 := extractTaskDefinitions cfg flowPath tree
    let edges2 := extractDependencies tree tasks1
    let tasks3 := enrichTasks cfg tasks1
    let implicit := extractImplicitDependencies tree tasks1
    let edgesF := implicit.foldl addEdgeDedup edges2
    { object_name := objectName, tasks := tasks3, edges := edgesF,
      warnings := if tasks3.isEmpty then ["No tasks found in flow"] else [] }

/-- `ASTPythonParser._validate_file` over the observable state of the
path: raises for a missing path, a non-file path, or a non-`.py`
suffix, in that order. -/
structure FileStat where
  pathExists : Bool
  isFile : Bool
  suffix : String

/-- The construction-time validation (`_validate_file`). -/
def validateFilePy (st : FileStat) (path : String) : Except String Unit :=
  if !st.pathExists then .error ("Flow file not found: " ++ path)
  else if !st.isFile then .error ("Path is not a file: " ++ path)
  else if st.suffix != ".py" then .error ("File must be .py file: " ++ path)
  else .ok ()

-- ===========================================================================
-- C5  (syntactically invalid source)
-- ===========================================================================

/-- C5: for every syntactically invalid source (an `ast.parse` error),
`ASTPythonParser.parse` returns a `FlowAnalysis` with zero tasks and a
non-empty error list — the `SyntaxError` is caught inside `parse`,
which always returns (it is a total function of the parse outcome);
and the construction-time `_validate_file` succeeds exactly when the
path exists, is a file and carries the `.py` suffix — the three
file-access failures, and only they, raise there. -/
theorem C5_invalid_source_contract (objectName flowPath : String) (cfg : TaskDefs) :
    (∀ e : String,
      (ASTPythonParser.parse objectName flowPath cfg (Except.error e)).tasks = [] ∧
      (ASTPythonParser.parse objectName flowPath cfg (Except.error e)).errors =
        ["Python syntax error: " ++ e] ∧
      (ASTPythonParser.parse objectName flowPath cfg (Except.error e)).errors ≠ []) ∧
    (∀ (st : FileStat) (path : String),
      validateFilePy st path = Except.ok () ↔
        (st.pathExists = true ∧ st.isFile = true ∧ st.suffix = ".py")) := by
  constructor
  · intro e
    exact ⟨rfl, rfl, by simp [ASTPythonParser.parse]⟩
  · intro st path
    rcases st with ⟨pe, fi, suf⟩
    cases pe <;> cases fi <;> by_cases hs : suf = ".py" <;>
      simp [validateFilePy, hs]

-- ===========================================================================
-- C8  (implicit data_dependency inference)
-- ===========================================================================

/-- The module `x = ReadExcel(input_table="t")` followed by
`y = Filter(input_table=x)`. -/
def c8Module : PyModule :=
  [.assign [.name "x"] (.call (.name "ReadExcel") [(some "input_table", .const (.str "t"))]) 1,
   .assign [.name "y"] (.call (.name "Filter") [(some "input_table", .name "x")]) 2]

/-- The task that pass 1 produces for the `x` assignment. -/
def c8TaskX (flowPath : String) : Task :=
  { task_id := "x", task_type := "ReadExcel", task_name := .str "x",
    parameters := [(some "input_table", .str "t")],
    line_number := some 1, file_path := some flowPath }

/-- The task that pass 1 produces for the `y` assignment. -/
def c8TaskY (flowPath : String) : Task :=
  { task_id := "y", task_type := "Filter", task_name := .str "y",
    parameters := [(some "input_table", .str "x")],
    line_number := some 2, file_path := some flowPath }

/-- Pass 1 on the C8 module, given that both types are registered. -/
theorem extractTaskDefinitions_c8 (cfg : TaskDefs) (flowPath : String)
    (h1 : (cfg.map Prod.fst).contains "ReadExcel" = true)
    (h2 : (cfg.map Prod.fst).contains "Filter" = true) :
    extractTaskDefinitions cfg flowPath c8Module =
      [c8TaskX flowPath, c8TaskY flowPath] := by
  simp only [extractTaskDefinitions, c8Module, List.foldl_cons, List.foldl_nil,
    getCallName]
  rw [if_pos h1, if_pos h2]
  rfl

/-- Enrichment changes only metadata: ids and types are preserved. -/
theorem enrichTasks_proj (cfg : TaskDefs) (ts : List Task) :
    (enrichTasks cfg ts).map (fun t => (t.task_id, t.task_type)) =
      ts.map (fun t => (t.task_id, t.task_type)) := by
  induction ts with
  | nil => rfl
  | cons t rest ih =>
    simp only [enrichTasks, List.map_cons] at *
    refine congrArg₂ List.cons ?_ ih
    unfold enrichOne
    cases (cfg.find? (fun p => p.1 == t.task_type)).map Prod.snd with
    | none => rfl
    | some d =>
      by_cases hd : d.isEmpty <;> simp [hd]

/-- C8: given `ReadExcel` and `Filter` registered in the configuration
registry, parsing the two-assignment module yields exactly the tasks
`x : ReadExcel` and `y : Filter` and exactly one edge — a
`data_dependency` edge from `x` to `y` — with no wiring call present. -/
theorem C8_implicit_dependency (objectName flowPath : String) (cfg : TaskDefs)
    (h1 : (cfg.map Prod.fst).contains "ReadExcel" = true)
    (h2 : (cfg.map Prod.fst).contains "Filter" = true) :
    (ASTPythonParser.parse objectName flowPath cfg (Except.ok c8Module)).tasks.map
        (fun t => (t.task_id, t.task_type)) = [("x", "ReadExcel"), ("y", "Filter")] ∧
    (ASTPythonParser.parse objectName flowPath cfg (Except.ok c8Module)).edges =
      [{ source_id := "x", target_id := "y", edge_type := "data_dependency" }] := by
  have htasks := extractTaskDefinitions_c8 cfg flowPath h1 h2
  constructor
  · show (enrichTasks cfg (extractTaskDefinitions cfg flowPath c8Module)).map
        (fun t => (t.task_id, t.task_type)) = _
    rw [htasks, enrichTasks_proj]
    rfl
  · show (extractImplicitDependencies c8Module
        (extractTaskDefinitions cfg flowPath c8Module)).foldl addEdgeDedup
        (extractDependencies c8Module (extractTaskDefinitions cfg flowPath c8Module)) = _
    rw [htasks]
    rfl

/-- Witness for C8 at a concrete registry containing both types. -/
theorem C8_implicit_dependency_witness :
    (ASTPythonParser.parse "obj" "/f.py"
        [("ReadExcel", []), ("Filter", [])] (Except.ok c8Module)).tasks.map
        (fun t => (t.task_id, t.task_type)) = [("x", "ReadExcel"), ("y", "Filter")] ∧
    (ASTPythonParser.parse "obj" "/f.py"
        [("ReadExcel", []), ("Filter", [])] (Except.ok c8Module)).edges =
      [{ source_id := "x", target_id := "y", edge_type := "data_dependency" }] :=
  C8_implicit_dependency "obj" "/f.py" [("ReadExcel", []), ("Filter", [])]
    (by decide) (by decide)

-- ===========================================================================
-- GraphBuilder.build orchestration  (src/graph/builder.py 56-155)
-- ===========================================================================

mutual

/-- Injection of a loaded YAML value into the Python value universe
(in the source both are the same dynamic universe). -/
def yToP : YValue → PVal
  | .str s => .str s
  | .int n => .int n
  | .bool b => .bool b
  | .null => .none
  | .list xs => .list (yToPList xs)
  | .map kvs => .dict (yToPPairs kvs)

/-- Element-wise injection of a list. -/
def yToPList : List YValue → List PVal
  | [] => []
  | x :: xs => yToP x :: yToPList xs

/-- Pair-wise injection of a mapping. -/
def yToPPairs : List (String × YValue) → List (PVal × PVal)
  | [] => []
  | (k, v) :: kvs => (PVal.str k, yToP v) :: yToPPairs kvs

end

mutual

/-- Python `==` between two loaded YAML values (scalar cross-type
comparisons are `False`; the `True == 1` corner never arises for the
string-typed discriminants this is used on). -/
def yBeq : YValue → YValue → Bool
  | .str a, .str b => a == b
  | .int a, .int b => a == b
  | .bool a, .bool b => a == b
  | .null, .null => true
  | .list a, .list b => yBeqList a b
  | .map a, .map b => yBeqPairs a b
  | _, _ => false

/-- Element-wise equality of lists. -/
def yBeqList : List YValue → List YValue → Bool
  | [], [] => true
  | a :: as2, b :: bs => yBeq a b && yBeqList as2 bs
  | _, _ => false

/-- Pair-wise equality of mappings. -/
def yBeqPairs : List (String × YValue) → List (String × YValue) → Bool
  | [], [] => true
  | (ka, va) :: as2, (kb, vb) :: bs => ka == kb && yBeq va vb && yBeqPairs as2 bs
  | _, _ => false

end

/-- `list(set(xs))` on loaded values, modelled with first-occurrence
order. -/
def dedupY (xs : List YValue) : List YValue :=
  xs.foldl (fun acc x => if acc.any (yBeq x) then acc else acc ++ [x]) []

/-- Character-list prefix test. -/
def charListStartsWith : List Char → List Char → Bool
  | [], _ => true
  | _ :: _, [] => false
  | a :: as2, b :: bs => a == b && charListStartsWith as2 bs

/-- Character-list infix test. -/
def listInfixAux : List Char → List Char → Bool
  | needle, [] => needle.isEmpty
  | needle, h :: rest => charListStartsWith needle (h :: rest) || listInfixAux needle rest

/-- Python substring test `needle in hay`. -/
def strContains (hay needle : String) : Bool :=
  listInfixAux needle.data hay.data

/-- Python `str.endswith`. -/
def strEndsWith (hay suffix : String) : Bool :=
  charListStartsWith suffix.data.reverse hay.data.reverse

/-- Python `path.split('/')[-1]`. -/
def lastComponent (p : String) : String :=
  ((p.splitOn "/").getLast?).getD p

/-- `GraphBuilder._find_yaml_references`: match YAML files to a task by
parameter value — a `full_path(...)` placeholder triggers the
substring-containment heuristic between task id and file base name,
otherwise a direct-filename match (first hit, then stop) with a
partial-path fallback; duplicates removed. -/
def findYamlReferences (t : Task) (yamlKeys : List String) : List String :=
  let paramNames := ["criteria_descriptions_file", "merging_rules", "mapping_rules", "rules"]
  let refs := paramNames.foldl (fun acc pname =>
    match (t.parameters.find? (fun p => p.1 == some pname)).map Prod.snd with
    | some (PVal.str pv) =>
      if pv == "full_path(...)" then
        acc ++ yamlKeys.filter (fun yp =>
          let fn := ((lastComponent yp).replace ".yml" "").replace ".yaml" ""
          strContains t.task_id fn || strContains fn t.task_id)
      else
        (match yamlKeys.find? (fun yp => strContains pv (lastComponent yp)) with
         | some yp => acc ++ [yp]
         | Option.none =>
           match yamlKeys.find? (fun yp =>
               strContains pv yp || strEndsWith pv yp) with
           | some yp => acc ++ [yp]
           | Option.none => acc)
    | some _ => acc
    | Option.none => acc) []
  FlowGraph.dedup refs

/-- Key comparison inside the nested `yaml_metadata` dict (keys are
always strings there). -/
def pKeyEq (p : PVal) (k : String) : Bool :=
  match p with
  | .str s => s == k
  | _ => false

/-- Dict assignment on the nested `yaml_metadata` mapping. -/
def setMetaP (md : List (PVal × PVal)) (k : String) (v : PVal) :
    List (PVal × PVal) :=
  if md.any (fun p => pKeyEq p.1 k) then
    md.map (fun p => if pKeyEq p.1 k then (p.1, v) else p)
  else md ++ [(PVal.str k, v)]

/-- `GraphBuilder._add_yaml_metadata_to_task`: summarize one analysis
(counts and distinct categorical values) into the task's
`yaml_metadata` mapping. -/
def addYamlMetadataToTask (t : Task) (a : YAMLAnalysis) : Task :=
  let ym := (match (t.metadata.find? (fun p => p.1 == "yaml_metadata")).map Prod.snd with
    | some (.dict kvs) => kvs
    | _ => [])
  let ym1 :=
    if !a.merge_rules.isEmpty then
      setMetaP (setMetaP ym "merge_rules_count" (.int a.merge_rules.length))
        "tables_merged" (.list (a.merge_rules.map (fun r => PVal.str r.table)))
    else ym
  let ym2 :=
    if !a.filter_criteria.isEmpty then
      setMetaP (setMetaP ym1 "filter_count" (.int a.filter_criteria.length))
        "filter_types" (.list ((dedupY (a.filter_criteria.map (·.criteria_type))).map yToP))
    else ym1
  let ym3 :=
    if !a.mapping_rules.isEmpty then
      setMetaP (setMetaP ym2 "mapping_count" (.int a.mapping_rules.length))
        "mapping_actions" (.list ((dedupY (a.mapping_rules.map (·.action))).map yToP))
    else ym2
  { t with metadata := setMeta t.metadata "yaml_metadata" (.dict ym3) }

/-- `GraphBuilder._enrich_graph_with_yaml` on one task: merge in the
summaries of every referenced YAML file. -/
def enrichTaskWithYaml (analyses : List (String × YAMLAnalysis)) (t : Task) : Task :=
  (findYamlReferences t (analyses.map Prod.fst)).foldl (fun acc ref =>
    match (analyses.find? (fun p => p.1 == ref)).map Prod.snd with
    | some a => addYamlMetadataToTask acc a
    | Option.none => acc) t

/-- `GraphBuilder._enrich_graph_with_yaml` over the graph. -/
def enrichGraphWithYaml (g : FlowGraph) (analyses : List (String × YAMLAnalysis)) :
    FlowGraph :=
  { g with tasks := g.tasks.map (fun p => (p.1, enrichTaskWithYaml analyses p.2)) }

/-- What `build()` observes of one discovered YAML file: its relative
path (dict key and message prefix), its file name (used in the
per-file failure warning), and the outcome of constructing and loading
it — the outer `error` is a constructor exception caught by the
per-file `try`, the inner value feeds `YAMLParser.parse`. -/
structure YamlFileEnv where
  relPath : String
  fileName : String
  init : Except String (Except String (Option YValue))

/-- One iteration of `GraphBuilder._parse_yaml_files`: a constructor
failure becomes a warning; otherwise the analysis is stored under the
relative path and its errors/warnings are relabelled and collected. -/
def parseYamlFilesStep
    (acc : List (String × YAMLAnalysis) × List String × List String)
    (f : YamlFileEnv) :
    List (String × YAMLAnalysis) × List String × List String :=
  match f.init with
  | .error e =>
    (acc.1, acc.2.1, acc.2.2 ++ ["Failed to parse " ++ f.fileName ++ ": " ++ e])
  | .ok load =>
    let a := YAMLParser.parse f.relPath f.fileName load
    (acc.1 ++ [(f.relPath, a)],
     acc.2.1 ++ a.errors.map (fun err => f.relPath ++ ": " ++ err),
     acc.2.2 ++ a.warnings.map (fun wa => f.relPath ++ ": " ++ wa))

/-- The task-insertion loop of `_build_graph_from_analysis`: an
insertion failure is reported as an error. -/
def addTasksStep (acc : FlowGraph × List String) (t : Task) : FlowGraph × List String :=
  match acc.1.add_task t with
  | .ok g2 => (g2, acc.2)
  | .error e => (acc.1, acc.2 ++ ["Failed to add task " ++ t.task_id ++ ": " ++ e])

/-- The edge-insertion loop of `_build_graph_from_analysis`: an
insertion failure is reported as a warning. -/
def addEdgesStep (acc : FlowGraph × List String) (e : Edge) : FlowGraph × List String :=
  match acc.1.add_edge e with
  | .ok g2 => (g2, acc.2)
  | .error m =>
    (acc.1, acc.2 ++ ["Failed to add edge " ++ e.source_id ++ "->" ++ e.target_id ++ ": " ++ m])

/-- `GraphBuilder._build_graph_from_analysis`: returns the graph, the
extended errors and the extended warnings. -/
def buildGraphFromAnalysis (objectPath : String) (analysis : FlowAnalysis)
    (errors warnings : List String) : FlowGraph × List String × List String :=
  let g0 : FlowGraph := { object_name := analysis.object_name, object_path := objectPath }
  let r1 := analysis.tasks.foldl addTasksStep (g0, errors)
  let r2 := analysis.edges.foldl addEdgesStep (r1.1, warnings)
  (r2.1, r1.2, r2.2)

/-- Embedding of `GraphBuildResult`. -/
structure GraphBuildResult where
  graph : FlowGraph
  success : Bool
  errors : List String
  warnings : List String
  metadata : List (String × PVal)
deriving Repr

/-- What `build()` observes of its collaborators: the locator
initialization outcome (`__init__`), the `locate_creation_flow`
outcome (its raised exception is caught by the top-level handler; a
falsy return takes the not-found branch), the `ASTPythonParser`
construction outcome (file-access errors raise into the top-level
handler), the object name derived from the flow path, the task-type
registry, the `ast.parse` outcome, and the `find_all_yaml_files`
outcome with the per-file environments. -/
structure BuildEnv where
  objectPath : String
  locatorError : Option String
  locate : Except String (Option String)
  parserInit : Except String Unit
  objectName : String
  cfg : TaskDefs
  astResult : Except String PyModule
  findYaml : Except String (List YamlFileEnv)

/-- The top-level `except Exception` handler of `build()`: the already
accumulated errors plus the single unexpected-error entry, a failed
result, and a fresh empty graph named `unknown`. -/
def catchAllResult (env : BuildEnv) (errors warnings : List String) (e : String) :
    GraphBuildResult :=
  { graph := { object_name := "unknown", object_path := env.objectPath },
    success := false,
    errors := errors ++ ["Unexpected error: " ++ e],
    warnings := warnings, metadata := [] }

/-- `GraphBuilder.build`: the orchestration, with every fallible
collaborator step explicit.  Any step exception inside the `try` block
flows into `catchAllResult` — `build` itself always returns. -/
def GraphBuilder.build (env : BuildEnv) : GraphBuildResult :=
  match env.locatorError with
  | some le =>
    { graph := { object_name := "unknown", object_path := env.objectPath },
      success := false, errors := ["Invalid object path: " ++ le],
      warnings := [], metadata := [] }
  | Option.none =>
    match env.locate with
    | .error e => catchAllResult env [] [] e
    | .ok Option.none =>
      { graph := { object_name := "unknown", object_path := env.objectPath },
        success := false, errors := ["creation_flow.py not found"],
        warnings := [], metadata := [] }
    | .ok (some flowPath) =>
      match env.parserInit with
      | .error e => catchAllResult env [] [] e
      | .ok _ =>
        let analysis := ASTPythonParser.parse env.objectName flowPath env.cfg env.astResult
        match env.findYaml with
        | .error e => catchAllResult env analysis.errors analysis.warnings e
        | .ok files =>
          let y := files.foldl parseYamlFilesStep ([], analysis.errors, analysis.warnings)
          let b := buildGraphFromAnalysis env.objectPath analysis y.2.1 y.2.2
          let g2 := enrichGraphWithYaml b.1 y.1
          let lk := linkKnownTerminalChain g2 b.2.2
          let errorsF := b.2.1 ++ validateGraphB lk.1
          { graph := lk.1,
            success := errorsF.isEmpty,
            errors := errorsF,
            warnings := lk.2,
            metadata := [("object_name", .str analysis.object_name),
                         ("task_count", .int lk.1.tasks.length),
                         ("edge_count", .int lk.1.edges.length),
                         ("yaml_files_parsed", .int y.1.length)] }

-- ===========================================================================
-- C4  (build never raises; success iff no errors)
-- ===========================================================================

/-- C4: `build()` always returns a `GraphBuildResult` (it is a total
function of the collaborator outcomes — every exception point feeds the
top-level handler); on every input the success flag is `true` exactly
when the error list is empty (warnings never enter that decision); and
at each exception point inside the `try` block (`locate_creation_flow`,
`ASTPythonParser` construction, `find_all_yaml_files`) the result is a
failed one carrying a fresh empty placeholder graph named `unknown`
with the exception appended as a single error string after the errors
accumulated so far. -/
theorem C4_build_contract (env : BuildEnv) :
    ((GraphBuilder.build env).success = true ↔ (GraphBuilder.build env).errors = []) ∧
    (∀ e : String, env.locatorError = Option.none → env.locate = Except.error e →
      (GraphBuilder.build env).graph.tasks = [] ∧
      (GraphBuilder.build env).graph.edges = [] ∧
      (GraphBuilder.build env).graph.object_name = "unknown" ∧
      (GraphBuilder.build env).success = false ∧
      (GraphBuilder.build env).errors = ["Unexpected error: " ++ e]) ∧
    (∀ (e p : String), env.locatorError = Option.none →
      env.locate = Except.ok (some p) → env.parserInit = Except.error e →
      (GraphBuilder.build env).graph.tasks = [] ∧
      (GraphBuilder.build env).graph.object_name = "unknown" ∧
      (GraphBuilder.build env).success = false ∧
      (GraphBuilder.build env).errors = ["Unexpected error: " ++ e]) ∧
    (∀ (e p : String), env.locatorError = Option.none →
      env.locate = Except.ok (some p) → env.parserInit = Except.ok () →
      env.findYaml = Except.error e →
      (GraphBuilder.build env).graph.tasks = [] ∧
      (GraphBuilder.build env).graph.object_name = "unknown" ∧
      (GraphBuilder.build env).success = false ∧
      (GraphBuilder.build env).errors =
        (ASTPythonParser.parse env.objectName p env.cfg env.astResult).errors ++
          ["Unexpected error: " ++ e]) := by
  refine ⟨?_, ?_, ?_, ?_⟩
  · -- success iff errors empty, across every branch
    unfold GraphBuilder.build
    rcases henv : env.locatorError with _ | le
    · rcases hloc : env.locate with e | fp
      · simp [catchAllResult]
      · rcases fp with _ | p
        · simp
        · rcases hpi : env.parserInit with e | u
          · simp [catchAllResult]
          · rcases hfy : env.findYaml with e | files
            · simp [catchAllResult]
            · simp [List.isEmpty_iff]
    · simp
  · intro e h1 h2
    unfold GraphBuilder.build
    rw [h1, h2]
    exact ⟨rfl, rfl, rfl, rfl, rfl⟩
  · intro e p h1 h2 h3
    unfold GraphBuilder.build
    rw [h1, h2, h3]
    exact ⟨rfl, rfl, rfl, rfl⟩
  · intro e p h1 h2 h3 h4
    unfold GraphBuilder.build
    rw [h1, h2, h3, h4]
    exact ⟨rfl, rfl, rfl, rfl⟩

/-- Concrete environment whose flow-file location step raises. -/
def envLocFail : BuildEnv :=
  { objectPath := "/p", locatorError := Option.none,
    locate := Except.error "boom", parserInit := Except.ok (),
    objectName := "o", cfg := [], astResult := Except.error "x",
    findYaml := Except.ok [] }

/-- Witness for C4 at a concrete input: with `locate_creation_flow`
raising `boom`, build returns the failed empty `unknown` result with
exactly the single unexpected-error entry. -/
theorem C4_build_contract_witness :
    (GraphBuilder.build envLocFail).graph.tasks = [] ∧
    (GraphBuilder.build envLocFail).graph.edges = [] ∧
    (GraphBuilder.build envLocFail).graph.object_name = "unknown" ∧
    (GraphBuilder.build envLocFail).success = false ∧
    (GraphBuilder.build envLocFail).errors = ["Unexpected error: boom"] :=
  (C4_build_contract envLocFail).2.1 "boom" rfl rfl

end BMF
